import Mathlib

/-!
# Arr_consolidated_curve_data_traits_2

A shallow embedding of `CGAL/Arr_consolidated_cruve_data_traits_2.h`: the traits
decorator that attaches a list of data objects to every x-monotone curve of a base
traits class and propagates the data through `Make_x_monotone_2`, `Split_2`,
`Intersect_2`, `Are_mergeable_2` and `Merge_2`.

Conventions of the embedding.

* The template parameters `Traits_` and `Data_` become the type parameters
  `C` (`Base_curve_2`), `B` (`Base_x_monotone_curve_2`), `P` (`Point_2`), `D` (`Data`)
  and a record `Base_traits C B P` of the base functors.
* A derived class `X : public Y` is a record with a field `base : Y` next to the added
  members; passing the derived object where the base class is expected is `.base`.
* `std::list<T>` is `List T`; `push_back` appends at the end; an iterator range
  `[begin, end)` over a list is the list of the elements it visits.
* An output iterator is the list of the values written through it so far:
  `*oi = v; ++oi` appends `v`, and the returned past-the-end iterator is the final list.
* A call that may abort (a failed `CGAL_precondition` / `CGAL_assertion`, or a failure
  inside a base functor) returns `Except Failure _`; sequencing is the `Except` bind, so
  the first failure in program order is the one reported.
-/

namespace CGAL

/-- Ways in which a call can end without returning a value. -/
inductive Failure where
  | precondition_violation
  | assertion_violation
  | base_failure (code : Nat)
deriving DecidableEq, Repr

/-- Modelled from the spec: the `CGAL_precondition` macro, defined outside this header.
A precondition violation is fatal: the call aborts when the condition is false. -/
def CGAL_precondition (cond : Bool) : Except Failure Unit :=
  if cond then pure () else throw Failure.precondition_violation

/-- Modelled from the spec: the `CGAL_assertion_msg` macro, defined outside this header
(the message text is not represented). The call aborts when the condition is false. -/
def CGAL_assertion_msg (cond : Bool) : Except Failure Unit :=
  if cond then pure () else throw Failure.assertion_violation

/-- The member `std::list<T>::push_back`. -/
def push_back {T : Type} (l : List T) (x : T) : List T :=
  l ++ [x]

/-- The loop `for (it = begin; it != end; it++) l.push_back(*it);` over a range. -/
def push_back_range {T : Type} (l : List T) (range : List T) : List T :=
  range.foldl push_back l

/-- The comparison `operator==` of two `std::list`s: both lists are walked in
lockstep, elements are compared with `==`, and both must end together. -/
def std_list_eq {T : Type} [DecidableEq T] : List T → List T → Bool
  | [], [] => true
  | x :: xs, y :: ys => if x = y then std_list_eq xs ys else false
  | [], _ :: _ => false
  | _ :: _, [] => false

/-- Writing through an output iterator and advancing it: `*oi = v; ++oi;`. -/
def output {T : Type} (oi : List T) (v : T) : List T :=
  oi ++ [v]

/-- The class `Object` as far as this header uses it: a value that holds either a point
or a curve (`assign (base_cv, obj)` succeeds exactly on the second form). The base
traits produces `Object P B`; the decorated traits outputs `Object P (X_monotone_curve_2 B D)`. -/
inductive Object (P X : Type) where
  | point (p : P)
  | curve (cv : X)
deriving DecidableEq, Repr

/-- The class `Curve_2 : public Base_curve_2` with its member `m_data`. -/
structure Curve_2 (C D : Type) where
  base : C
  m_data : D
deriving DecidableEq, Repr

/-- The member `Curve_2::get_data`. -/
def Curve_2.get_data {C D : Type} (cv : Curve_2 C D) : D :=
  cv.m_data

/-- The member `Curve_2::set_data`. -/
def Curve_2.set_data {C D : Type} (cv : Curve_2 C D) (data : D) : Curve_2 C D :=
  { cv with m_data := data }

/-- The class `X_monotone_curve_2 : public Base_x_monotone_curve_2` with its member
`m_data_list`. -/
structure X_monotone_curve_2 (B D : Type) where
  base : B
  m_data_list : List D
deriving DecidableEq, Repr

namespace X_monotone_curve_2

variable {B D : Type}

/-- The default constructor `X_monotone_curve_2 ()`: a default base curve, no data. -/
def default [Inhabited B] : X_monotone_curve_2 B D :=
  { base := Inhabited.default, m_data_list := [] }

/-- The constructor `X_monotone_curve_2 (cv, data)`. -/
def from_data (cv : B) (data : D) : X_monotone_curve_2 B D :=
  { base := cv, m_data_list := push_back [] data }

/-- The constructor `X_monotone_curve_2 (cv, begin, end)`. -/
def from_range (cv : B) (range : List D) : X_monotone_curve_2 B D :=
  { base := cv, m_data_list := push_back_range [] range }

/-- The member `number_of_data_objects`: the size of the list (the narrowing of the size
to `int` is not represented; it preserves every size below `2 ^ 31`). -/
def number_of_data_objects (cv : X_monotone_curve_2 B D) : Nat :=
  cv.m_data_list.length

/-- The member `get_data`: the front of the list, under the precondition that the list
is not empty. -/
def get_data (cv : X_monotone_curve_2 B D) : Except Failure D := do
  CGAL_precondition (decide (cv.m_data_list.length > 0))
  match cv.m_data_list with
  | d :: _ => pure d
  | [] => throw Failure.precondition_violation

/-- The range `[begin_data (), end_data ())`. -/
def data_range (cv : X_monotone_curve_2 B D) : List D :=
  cv.m_data_list

/-- The member `has_same_data`. -/
def has_same_data [DecidableEq D] (cv1 cv2 : X_monotone_curve_2 B D) : Bool :=
  std_list_eq cv1.m_data_list cv2.m_data_list

/-- The member `add_data (data)`. -/
def add_data (cv : X_monotone_curve_2 B D) (data : D) : X_monotone_curve_2 B D :=
  { cv with m_data_list := push_back cv.m_data_list data }

/-- The member `clear_data`. -/
def clear_data (cv : X_monotone_curve_2 B D) : X_monotone_curve_2 B D :=
  { cv with m_data_list := [] }

/-- The member `set_data (data)`: `clear_data (); add_data (data);`. -/
def set_data (cv : X_monotone_curve_2 B D) (data : D) : X_monotone_curve_2 B D :=
  add_data (clear_data cv) data

/-- The member `add_data (begin, end)`. -/
def add_data_range (cv : X_monotone_curve_2 B D) (range : List D) :
    X_monotone_curve_2 B D :=
  { cv with m_data_list := push_back_range cv.m_data_list range }

end X_monotone_curve_2

/-- The base traits class `Traits_` as the decorator uses it: the tag
`Has_merge_category` and the five functors it delegates to. Every functor may fail. -/
structure Base_traits (C B P : Type) where
  Has_merge_category : Bool
  make_x_monotone_2 : C → Except Failure (List B)
  split_2 : B → P → Except Failure (B × B)
  intersect_2 : B → B → Except Failure (List (Object P B))
  are_mergeable_2 : B → B → Except Failure Bool
  merge_2 : B → B → Except Failure B

section Functors

variable {C B P D : Type}

/-- The typedef `Base_has_merge_category`. -/
def Base_has_merge_category (base : Base_traits C B P) : Bool :=
  base.Has_merge_category

/-- The typedef `Has_merge_category` of the decorated traits: `Tag_true`. -/
def Has_merge_category (_base : Base_traits C B P) : Bool :=
  true

/-- The functor `Make_x_monotone_2::operator()`. -/
def Make_x_monotone_2 (base : Base_traits C B P) (cv : Curve_2 C D)
    (oi : List (X_monotone_curve_2 B D)) : Except Failure (List (X_monotone_curve_2 B D)) := do
  let base_x_curves ← base.make_x_monotone_2 cv.base
  pure (base_x_curves.foldl
    (fun oi it => output oi (X_monotone_curve_2.from_data it cv.get_data)) oi)

/-- The functor `Split_2::operator()`; the pair returned is the final value of the output
parameters `(c1, c2)`, both of which are assigned on every returning path. -/
def Split_2 (base : Base_traits C B P) (cv : X_monotone_curve_2 B D) (p : P) :
    Except Failure (X_monotone_curve_2 B D × X_monotone_curve_2 B D) := do
  let (base_c1, base_c2) ← base.split_2 cv.base p
  let c1 := X_monotone_curve_2.from_range base_c1 cv.data_range
  let c2 := X_monotone_curve_2.from_range base_c2 cv.data_range
  pure (c1, c2)

/-- The body of the loop of `Intersect_2::operator()` for one intersection object. -/
def Intersect_2_step (cv1 cv2 : X_monotone_curve_2 B D)
    (oi : List (Object P (X_monotone_curve_2 B D))) (curr : Object P B) :
    List (Object P (X_monotone_curve_2 B D)) :=
  match curr with
  | Object.curve base_cv =>
    let cv := X_monotone_curve_2.from_range base_cv cv1.data_range
    let cv := cv.add_data_range cv2.data_range
    output oi (Object.curve cv)
  | Object.point p =>
    output oi (Object.point p)

/-- The functor `Intersect_2::operator()`; the test `base_list.is_empty ()` is the
emptiness test of the list (`std::list::empty`). -/
def Intersect_2 (base : Base_traits C B P) (cv1 cv2 : X_monotone_curve_2 B D)
    (oi : List (Object P (X_monotone_curve_2 B D))) :
    Except Failure (List (Object P (X_monotone_curve_2 B D))) := do
  let base_list ← base.intersect_2 cv1.base cv2.base
  if base_list.isEmpty then
    pure oi
  else
    pure (base_list.foldl (Intersect_2_step cv1 cv2) oi)

/-- The two overloads of `Are_mergeable_2::_are_mergeable_base_imp`, selected by the tag. -/
def _are_mergeable_base_imp (base : Base_traits C B P) (cv1 cv2 : X_monotone_curve_2 B D) :
    Bool → Except Failure Bool
  | true => base.are_mergeable_2 cv1.base cv2.base
  | false => pure false

/-- The functor `Are_mergeable_2::operator()`. -/
def Are_mergeable_2 [DecidableEq D] (base : Base_traits C B P)
    (cv1 cv2 : X_monotone_curve_2 B D) : Except Failure Bool := do
  let r ← _are_mergeable_base_imp base cv1 cv2 (Base_has_merge_category base)
  if !r then
    pure false
  else
    pure (cv1.has_same_data cv2)

/-- The two overloads of `Merge_2::_merge_imp`, selected by the tag; `c` is the value the
output parameter holds on entry, and the result is the value it holds on return. -/
def _merge_imp [DecidableEq D] (base : Base_traits C B P)
    (cv1 cv2 c : X_monotone_curve_2 B D) : Bool → Except Failure (X_monotone_curve_2 B D)
  | true => do
    let base_cv ← base.merge_2 cv1.base cv2.base
    CGAL_precondition (cv1.has_same_data cv2)
    pure (X_monotone_curve_2.from_range base_cv cv1.data_range)
  | false => do
    CGAL_assertion_msg false
    pure c

/-- The functor `Merge_2::operator()`. -/
def Merge_2 [DecidableEq D] (base : Base_traits C B P)
    (cv1 cv2 c : X_monotone_curve_2 B D) : Except Failure (X_monotone_curve_2 B D) :=
  _merge_imp base cv1 cv2 c (Base_has_merge_category base)

end Functors

/-- The object that one pass of the loop of `Intersect_2::operator()` writes for the
base object `curr`, in closed form; the loop lemmas below relate it to `Intersect_2_step`. -/
def Intersect_2_written {B P D : Type} (cv1 cv2 : X_monotone_curve_2 B D) :
    Object P B → Object P (X_monotone_curve_2 B D)
  | Object.curve b => Object.curve { base := b, m_data_list := cv1.m_data_list ++ cv2.m_data_list }
  | Object.point p => Object.point p

/-- The x-monotone curves that the functors of the decorated traits over `base` can
produce: the curves written by `Make_x_monotone_2`, and the curves that `Split_2`,
`Intersect_2` (as overlap curves) and `Merge_2` return on curves produced before. -/
inductive Produced {C B P D : Type} [DecidableEq D] (base : Base_traits C B P) :
    X_monotone_curve_2 B D → Prop where
  | make_x_monotone (cv : Curve_2 C D) (oi out : List (X_monotone_curve_2 B D))
      (x : X_monotone_curve_2 B D) :
      Make_x_monotone_2 base cv oi = Except.ok (oi ++ out) → x ∈ out → Produced base x
  | split_left (cv : X_monotone_curve_2 B D) (p : P) (c1 c2 : X_monotone_curve_2 B D) :
      Produced base cv → Split_2 base cv p = Except.ok (c1, c2) → Produced base c1
  | split_right (cv : X_monotone_curve_2 B D) (p : P) (c1 c2 : X_monotone_curve_2 B D) :
      Produced base cv → Split_2 base cv p = Except.ok (c1, c2) → Produced base c2
  | intersect (cv1 cv2 : X_monotone_curve_2 B D)
      (oi out : List (Object P (X_monotone_curve_2 B D))) (x : X_monotone_curve_2 B D) :
      Produced base cv1 → Produced base cv2 →
      Intersect_2 base cv1 cv2 oi = Except.ok (oi ++ out) → Object.curve x ∈ out →
      Produced base x
  | merge (cv1 cv2 c x : X_monotone_curve_2 B D) :
      Produced base cv1 → Produced base cv2 →
      Merge_2 base cv1 cv2 c = Except.ok x → Produced base x

namespace Example

/-- A base traits over intervals `(lo, hi)` of the number line. A general curve is a list
of break points, cut into the intervals between consecutive break points; splitting,
merging and their preconditions are checked; two intervals meet in an overlap interval,
in a single point, or not at all. -/
def interval_traits (tag : Bool) : Base_traits (List Nat) (Nat × Nat) Nat where
  Has_merge_category := tag
  make_x_monotone_2 := fun c => Except.ok (List.zip c c.tail)
  split_2 := fun cv p =>
    if cv.1 < p ∧ p < cv.2 then Except.ok ((cv.1, p), (p, cv.2))
    else Except.error Failure.precondition_violation
  intersect_2 := fun a b =>
    if max a.1 b.1 < min a.2 b.2 then Except.ok [Object.curve (max a.1 b.1, min a.2 b.2)]
    else if max a.1 b.1 = min a.2 b.2 then Except.ok [Object.point (max a.1 b.1)]
    else Except.ok []
  are_mergeable_2 := fun a b => Except.ok (decide (a.2 = b.1 ∨ b.2 = a.1))
  merge_2 := fun a b =>
    if a.2 = b.1 ∨ b.2 = a.1 then Except.ok (min a.1 b.1, max a.2 b.2)
    else Except.error Failure.precondition_violation

/-- The interval traits with the precondition of its merge functor compiled out: the
merge functor returns the hull of its two arguments whether or not they are adjacent. -/
def unchecked_interval_traits : Base_traits (List Nat) (Nat × Nat) Nat :=
  { interval_traits true with merge_2 := fun a b => Except.ok (min a.1 b.1, max a.2 b.2) }

/-- The interval traits for input curves that are themselves single intervals: the
decomposition of an interval is that interval. -/
def segment_traits (tag : Bool) : Base_traits (Nat × Nat) (Nat × Nat) Nat where
  Has_merge_category := tag
  make_x_monotone_2 := fun c => Except.ok [c]
  split_2 := (interval_traits tag).split_2
  intersect_2 := (interval_traits tag).intersect_2
  are_mergeable_2 := (interval_traits tag).are_mergeable_2
  merge_2 := (interval_traits tag).merge_2

/-- A stub base traits whose intersection functor reports a fixed mixture of points and
overlap curves, and whose merge functors always fail. -/
def stub_traits (tag : Bool) : Base_traits Nat Nat Nat where
  Has_merge_category := tag
  make_x_monotone_2 := fun c => Except.ok [c]
  split_2 := fun cv p => Except.ok (cv + p, cv * p)
  intersect_2 := fun a b =>
    Except.ok [Object.point a, Object.curve (a + b), Object.point b, Object.curve (a * b)]
  are_mergeable_2 := fun _ _ => Except.error (Failure.base_failure 1)
  merge_2 := fun _ _ => Except.error (Failure.base_failure 2)

end Example

/-! ## Lemmas on the list primitives and the loops -/

section Lemmas

variable {C B P D T U : Type}

theorem push_back_range_eq (l range : List T) : push_back_range l range = l ++ range := by
  unfold push_back_range
  induction range generalizing l with
  | nil => simp
  | cons x xs ih =>
    rw [List.foldl_cons, ih]
    simp [push_back]

theorem foldl_output_eq (f : T → U) (xs : List T) (oi : List U) :
    xs.foldl (fun oi x => output oi (f x)) oi = oi ++ xs.map f := by
  induction xs generalizing oi with
  | nil => simp
  | cons x xs ih =>
    rw [List.foldl_cons, ih]
    simp [output]

theorem std_list_eq_iff [DecidableEq T] (l1 l2 : List T) :
    std_list_eq l1 l2 = true ↔ l1 = l2 := by
  induction l1 generalizing l2 with
  | nil => cases l2 <;> simp [std_list_eq]
  | cons x xs ih =>
    cases l2 with
    | nil => simp [std_list_eq]
    | cons y ys =>
      by_cases hxy : x = y
      · simp [std_list_eq, hxy, ih]
      · simp [std_list_eq, hxy]

theorem std_list_eq_decide [DecidableEq T] (l1 l2 : List T) :
    std_list_eq l1 l2 = decide (l1 = l2) := by
  by_cases h : l1 = l2
  · simp [h, (std_list_eq_iff l2 l2).mpr rfl]
  · have hne : std_list_eq l1 l2 ≠ true := fun ht => h ((std_list_eq_iff l1 l2).mp ht)
    simp [h, hne]

theorem from_data_eq (b : B) (d : D) :
    X_monotone_curve_2.from_data b d = { base := b, m_data_list := [d] } := by
  simp [X_monotone_curve_2.from_data, push_back]

theorem from_range_eq (b : B) (S : List D) :
    X_monotone_curve_2.from_range b S = { base := b, m_data_list := S } := by
  simp [X_monotone_curve_2.from_range, push_back_range_eq]

theorem Intersect_2_step_eq (cv1 cv2 : X_monotone_curve_2 B D)
    (oi : List (Object P (X_monotone_curve_2 B D))) (curr : Object P B) :
    Intersect_2_step cv1 cv2 oi curr = oi ++ [Intersect_2_written cv1 cv2 curr] := by
  cases curr with
  | point p => simp [Intersect_2_step, Intersect_2_written, output]
  | curve b =>
    simp [Intersect_2_step, Intersect_2_written, output, from_range_eq,
      X_monotone_curve_2.add_data_range, X_monotone_curve_2.data_range, push_back_range_eq]

theorem Intersect_2_loop_eq (cv1 cv2 : X_monotone_curve_2 B D) (objs : List (Object P B))
    (oi : List (Object P (X_monotone_curve_2 B D))) :
    objs.foldl (Intersect_2_step cv1 cv2) oi
      = oi ++ objs.map (Intersect_2_written cv1 cv2) := by
  induction objs generalizing oi with
  | nil => simp
  | cons x xs ih =>
    rw [List.foldl_cons, ih, Intersect_2_step_eq]
    simp

theorem Make_x_monotone_2_eq (base : Base_traits C B P) (cv : Curve_2 C D)
    (oi : List (X_monotone_curve_2 B D)) (bs : List B)
    (h : base.make_x_monotone_2 cv.base = Except.ok bs) :
    Make_x_monotone_2 base cv oi
      = Except.ok (oi ++ bs.map (fun b => { base := b, m_data_list := [cv.m_data] })) := by
  unfold Make_x_monotone_2
  rw [h]
  show Except.ok _ = Except.ok _
  rw [foldl_output_eq]
  simp [from_data_eq, Curve_2.get_data]

theorem Intersect_2_eq (base : Base_traits C B P) (cv1 cv2 : X_monotone_curve_2 B D)
    (oi : List (Object P (X_monotone_curve_2 B D))) (objs : List (Object P B))
    (h : base.intersect_2 cv1.base cv2.base = Except.ok objs) :
    Intersect_2 base cv1 cv2 oi
      = Except.ok (oi ++ objs.map (Intersect_2_written cv1 cv2)) := by
  unfold Intersect_2
  rw [h]
  show (if objs.isEmpty = true then _ else _) = _
  cases objs with
  | nil => simp; rfl
  | cons x xs => simp [Intersect_2_loop_eq, Intersect_2_step_eq]; rfl

theorem has_same_data_eq [DecidableEq D] (cv1 cv2 : X_monotone_curve_2 B D) :
    cv1.has_same_data cv2 = decide (cv1.m_data_list = cv2.m_data_list) := by
  simp [X_monotone_curve_2.has_same_data, std_list_eq_decide]

theorem Are_mergeable_2_tag_true_ok [DecidableEq D] (base : Base_traits C B P)
    (cv1 cv2 : X_monotone_curve_2 B D) (htag : base.Has_merge_category = true) (r : Bool)
    (h : base.are_mergeable_2 cv1.base cv2.base = Except.ok r) :
    Are_mergeable_2 base cv1 cv2
      = Except.ok (r && decide (cv1.m_data_list = cv2.m_data_list)) := by
  unfold Are_mergeable_2 Base_has_merge_category
  rw [htag]
  simp only [_are_mergeable_base_imp, h]
  cases r
  · rfl
  · show Except.ok _ = Except.ok _
    simp [has_same_data_eq]

theorem Are_mergeable_2_tag_true_error [DecidableEq D] (base : Base_traits C B P)
    (cv1 cv2 : X_monotone_curve_2 B D) (htag : base.Has_merge_category = true) (e : Failure)
    (h : base.are_mergeable_2 cv1.base cv2.base = Except.error e) :
    Are_mergeable_2 base cv1 cv2 = Except.error e := by
  unfold Are_mergeable_2 Base_has_merge_category
  rw [htag]
  simp only [_are_mergeable_base_imp, h]
  rfl

theorem Are_mergeable_2_tag_false [DecidableEq D] (base : Base_traits C B P)
    (cv1 cv2 : X_monotone_curve_2 B D) (htag : base.Has_merge_category = false) :
    Are_mergeable_2 base cv1 cv2 = Except.ok false := by
  unfold Are_mergeable_2 Base_has_merge_category
  rw [htag]
  rfl

theorem Merge_2_tag_true_ok [DecidableEq D] (base : Base_traits C B P)
    (cv1 cv2 c : X_monotone_curve_2 B D) (htag : base.Has_merge_category = true) (m : B)
    (h : base.merge_2 cv1.base cv2.base = Except.ok m) :
    Merge_2 base cv1 cv2 c
      = if cv1.m_data_list = cv2.m_data_list
        then Except.ok { base := m, m_data_list := cv1.m_data_list }
        else Except.error Failure.precondition_violation := by
  unfold Merge_2 Base_has_merge_category
  rw [htag]
  simp only [_merge_imp, h]
  by_cases hs : cv1.m_data_list = cv2.m_data_list
  · have hd : cv1.has_same_data cv2 = true := by simp [has_same_data_eq, hs]
    rw [if_pos hs]
    show (CGAL_precondition (cv1.has_same_data cv2) >>= fun _ => _) = _
    rw [hd]
    show Except.ok _ = Except.ok _
    simp [from_range_eq, X_monotone_curve_2.data_range]
  · have hd : cv1.has_same_data cv2 = false := by simp [has_same_data_eq, hs]
    rw [if_neg hs]
    show (CGAL_precondition (cv1.has_same_data cv2) >>= fun _ => _) = _
    rw [hd]
    rfl

theorem Merge_2_tag_true_error [DecidableEq D] (base : Base_traits C B P)
    (cv1 cv2 c : X_monotone_curve_2 B D) (htag : base.Has_merge_category = true)
    (e : Failure) (h : base.merge_2 cv1.base cv2.base = Except.error e) :
    Merge_2 base cv1 cv2 c = Except.error e := by
  unfold Merge_2 Base_has_merge_category
  rw [htag]
  simp only [_merge_imp, h]
  rfl

theorem Merge_2_tag_false [DecidableEq D] (base : Base_traits C B P)
    (cv1 cv2 c : X_monotone_curve_2 B D) (htag : base.Has_merge_category = false) :
    Merge_2 base cv1 cv2 c = Except.error Failure.assertion_violation := by
  unfold Merge_2 Base_has_merge_category
  rw [htag]
  rfl

theorem Intersect_2_written_point_iff (cv1 cv2 : X_monotone_curve_2 B D)
    (objs : List (Object P B)) (i : Nat) (p : P) :
    (objs.map (Intersect_2_written cv1 cv2))[i]? = some (Object.point p)
      ↔ objs[i]? = some (Object.point p) := by
  rw [List.getElem?_map]
  cases hi : objs[i]? with
  | none => simp
  | some o => cases o <;> simp [Intersect_2_written]

theorem Intersect_2_written_curve_iff (cv1 cv2 : X_monotone_curve_2 B D)
    (objs : List (Object P B)) (i : Nat) (x : X_monotone_curve_2 B D) :
    (objs.map (Intersect_2_written cv1 cv2))[i]? = some (Object.curve x)
      ↔ ∃ b : B, objs[i]? = some (Object.curve b) ∧
          x = { base := b, m_data_list := cv1.m_data_list ++ cv2.m_data_list } := by
  rw [List.getElem?_map]
  cases hi : objs[i]? with
  | none => simp
  | some o =>
    cases o with
    | point p => simp [Intersect_2_written]
    | curve b =>
      simp only [Option.map_some', Intersect_2_written, Option.some.injEq, Object.curve.injEq]
      constructor
      · intro hx
        exact ⟨b, rfl, hx.symm⟩
      · rintro ⟨b', hb', hx⟩
        rw [hx, hb']

theorem Make_x_monotone_2_error (base : Base_traits C B P) (cv : Curve_2 C D)
    (oi : List (X_monotone_curve_2 B D)) (e : Failure)
    (h : base.make_x_monotone_2 cv.base = Except.error e) :
    Make_x_monotone_2 base cv oi = Except.error e := by
  unfold Make_x_monotone_2
  rw [h]
  rfl

theorem Make_x_monotone_2_ok_inv (base : Base_traits C B P) (cv : Curve_2 C D)
    (oi res : List (X_monotone_curve_2 B D))
    (h : Make_x_monotone_2 base cv oi = Except.ok res) :
    ∃ bs : List B, base.make_x_monotone_2 cv.base = Except.ok bs ∧
      res = oi ++ bs.map (fun b => { base := b, m_data_list := [cv.m_data] }) := by
  cases hb : base.make_x_monotone_2 cv.base with
  | error e =>
    rw [Make_x_monotone_2_error base cv oi e hb] at h
    cases h
  | ok bs =>
    rw [Make_x_monotone_2_eq base cv oi bs hb] at h
    injection h with h
    exact ⟨bs, rfl, h.symm⟩

theorem Split_2_eq (base : Base_traits C B P) (cv : X_monotone_curve_2 B D) (p : P)
    (l r : B) (h : base.split_2 cv.base p = Except.ok (l, r)) :
    Split_2 base cv p
      = Except.ok ({ base := l, m_data_list := cv.m_data_list },
                   { base := r, m_data_list := cv.m_data_list }) := by
  unfold Split_2
  simp only [h]
  show Except.ok _ = Except.ok _
  simp [from_range_eq, X_monotone_curve_2.data_range]

theorem Split_2_error (base : Base_traits C B P) (cv : X_monotone_curve_2 B D) (p : P)
    (e : Failure) (h : base.split_2 cv.base p = Except.error e) :
    Split_2 base cv p = Except.error e := by
  unfold Split_2
  simp only [h]
  rfl

theorem Split_2_ok_inv (base : Base_traits C B P) (cv : X_monotone_curve_2 B D) (p : P)
    (c1 c2 : X_monotone_curve_2 B D) (h : Split_2 base cv p = Except.ok (c1, c2)) :
    c1.m_data_list = cv.m_data_list ∧ c2.m_data_list = cv.m_data_list ∧
      base.split_2 cv.base p = Except.ok (c1.base, c2.base) := by
  cases hb : base.split_2 cv.base p with
  | error e =>
    rw [Split_2_error base cv p e hb] at h
    cases h
  | ok lr =>
    obtain ⟨l, r⟩ := lr
    rw [Split_2_eq base cv p l r hb] at h
    injection h with h
    injection h with h1 h2
    subst h1
    subst h2
    exact ⟨rfl, rfl, rfl⟩

theorem Intersect_2_error (base : Base_traits C B P) (cv1 cv2 : X_monotone_curve_2 B D)
    (oi : List (Object P (X_monotone_curve_2 B D))) (e : Failure)
    (h : base.intersect_2 cv1.base cv2.base = Except.error e) :
    Intersect_2 base cv1 cv2 oi = Except.error e := by
  unfold Intersect_2
  rw [h]
  rfl

theorem Intersect_2_ok_inv (base : Base_traits C B P) (cv1 cv2 : X_monotone_curve_2 B D)
    (oi res : List (Object P (X_monotone_curve_2 B D)))
    (h : Intersect_2 base cv1 cv2 oi = Except.ok res) :
    ∃ objs : List (Object P B), base.intersect_2 cv1.base cv2.base = Except.ok objs ∧
      res = oi ++ objs.map (Intersect_2_written cv1 cv2) := by
  cases hb : base.intersect_2 cv1.base cv2.base with
  | error e =>
    rw [Intersect_2_error base cv1 cv2 oi e hb] at h
    cases h
  | ok objs =>
    rw [Intersect_2_eq base cv1 cv2 oi objs hb] at h
    injection h with h
    exact ⟨objs, rfl, h.symm⟩

theorem Merge_2_ok_inv [DecidableEq D] (base : Base_traits C B P)
    (cv1 cv2 c x : X_monotone_curve_2 B D) (h : Merge_2 base cv1 cv2 c = Except.ok x) :
    base.Has_merge_category = true ∧ cv1.m_data_list = cv2.m_data_list ∧
      x.m_data_list = cv1.m_data_list ∧
      base.merge_2 cv1.base cv2.base = Except.ok x.base := by
  cases htag : base.Has_merge_category with
  | false =>
    rw [Merge_2_tag_false base cv1 cv2 c htag] at h
    cases h
  | true =>
    cases hb : base.merge_2 cv1.base cv2.base with
    | error e =>
      rw [Merge_2_tag_true_error base cv1 cv2 c htag e hb] at h
      cases h
    | ok m =>
      rw [Merge_2_tag_true_ok base cv1 cv2 c htag m hb] at h
      by_cases hs : cv1.m_data_list = cv2.m_data_list
      · rw [if_pos hs] at h
        injection h with h
        subst h
        exact ⟨rfl, hs, rfl, rfl⟩
      · rw [if_neg hs] at h
        cases h

theorem get_data_cons (b : B) (d : D) (rest : List D) :
    X_monotone_curve_2.get_data { base := b, m_data_list := d :: rest } = Except.ok d := by
  have hpos : decide ((d :: rest).length > 0) = true := by simp
  unfold X_monotone_curve_2.get_data
  simp only [hpos]
  rfl

theorem get_data_nil (b : B) :
    X_monotone_curve_2.get_data ({ base := b, m_data_list := [] } : X_monotone_curve_2 B D)
      = Except.error Failure.precondition_violation := by
  rfl

theorem Make_x_monotone_2_nonempty (base : Base_traits C B P) (cv : Curve_2 C D)
    (oi out : List (X_monotone_curve_2 B D)) (x : X_monotone_curve_2 B D)
    (h : Make_x_monotone_2 base cv oi = Except.ok (oi ++ out)) (hx : x ∈ out) :
    x.m_data_list = [cv.m_data] := by
  obtain ⟨bs, _, hres⟩ := Make_x_monotone_2_ok_inv base cv oi (oi ++ out) h
  have hout := List.append_cancel_left hres
  rw [hout] at hx
  obtain ⟨b, _, hb⟩ := List.mem_map.mp hx
  rw [← hb]

theorem Intersect_2_overlap_data (base : Base_traits C B P)
    (cv1 cv2 : X_monotone_curve_2 B D) (oi out : List (Object P (X_monotone_curve_2 B D)))
    (x : X_monotone_curve_2 B D)
    (h : Intersect_2 base cv1 cv2 oi = Except.ok (oi ++ out)) (hx : Object.curve x ∈ out) :
    x.m_data_list = cv1.m_data_list ++ cv2.m_data_list := by
  obtain ⟨objs, _, hres⟩ := Intersect_2_ok_inv base cv1 cv2 oi (oi ++ out) h
  have hout := List.append_cancel_left hres
  rw [hout] at hx
  obtain ⟨o, _, ho⟩ := List.mem_map.mp hx
  cases o with
  | point p => simp [Intersect_2_written] at ho
  | curve b =>
    simp only [Intersect_2_written, Object.curve.injEq] at ho
    rw [← ho]

theorem Produced_nonempty [DecidableEq D] (base : Base_traits C B P)
    (x : X_monotone_curve_2 B D) (h : Produced base x) : x.m_data_list ≠ [] := by
  induction h with
  | make_x_monotone cv oi out x hm hx =>
    rw [Make_x_monotone_2_nonempty base cv oi out x hm hx]
    simp
  | split_left cv p c1 c2 _ hs ih =>
    rw [(Split_2_ok_inv base cv p c1 c2 hs).1]
    exact ih
  | split_right cv p c1 c2 _ hs ih =>
    rw [(Split_2_ok_inv base cv p c1 c2 hs).2.1]
    exact ih
  | intersect cv1 cv2 oi out x _ _ hi hx ih1 _ =>
    rw [Intersect_2_overlap_data base cv1 cv2 oi out x hi hx]
    intro happ
    exact ih1 (List.append_eq_nil.mp happ).1
  | merge cv1 cv2 c x _ _ hm ih1 _ =>
    rw [(Merge_2_ok_inv base cv1 cv2 c x hm).2.2.1]
    exact ih1

theorem get_data_of_nonempty (x : X_monotone_curve_2 B D) (h : x.m_data_list ≠ []) :
    ∃ d : D, x.get_data = Except.ok d := by
  obtain ⟨b, S⟩ := x
  cases S with
  | nil => exact absurd rfl h
  | cons d rest => exact ⟨d, get_data_cons b d rest⟩

theorem Are_mergeable_2_ok_true_inv [DecidableEq D] (base : Base_traits C B P)
    (cv1 cv2 : X_monotone_curve_2 B D) (h : Are_mergeable_2 base cv1 cv2 = Except.ok true) :
    base.Has_merge_category = true ∧
      base.are_mergeable_2 cv1.base cv2.base = Except.ok true ∧
      cv1.m_data_list = cv2.m_data_list := by
  cases htag : base.Has_merge_category with
  | false =>
    rw [Are_mergeable_2_tag_false base cv1 cv2 htag] at h
    cases h
  | true =>
    cases hb : base.are_mergeable_2 cv1.base cv2.base with
    | error e =>
      rw [Are_mergeable_2_tag_true_error base cv1 cv2 htag e hb] at h
      cases h
    | ok r =>
      rw [Are_mergeable_2_tag_true_ok base cv1 cv2 htag r hb] at h
      injection h with h
      simp at h
      exact ⟨rfl, by rw [h.1], h.2⟩

end Lemmas

/-! ## Data propagation through the functors -/

section Claims

variable {C B P D : Type}

/-- C1. Decompose (`Make_x_monotone_2`): if the base decomposition of the base curve `c`
yields the pieces `bs`, then the functor appends exactly `bs.length` x-monotone curves to
the output, in the same order, the `i`-th having base curve `bs[i]` and data list `[d]`,
where `d` is the data of the input curve. -/
theorem C1_Make_x_monotone_2_singleton_data (base : Base_traits C B P) (c : C) (d : D)
    (oi : List (X_monotone_curve_2 B D)) (bs : List B)
    (h : base.make_x_monotone_2 c = Except.ok bs) :
    ∃ out : List (X_monotone_curve_2 B D),
      Make_x_monotone_2 base { base := c, m_data := d } oi = Except.ok (oi ++ out) ∧
      out.length = bs.length ∧
      ∀ (i : Nat) (b : B), bs[i]? = some b →
        out[i]? = some { base := b, m_data_list := [d] } := by
  refine ⟨bs.map (fun b => { base := b, m_data_list := [d] }), ?_, by simp, ?_⟩
  · exact Make_x_monotone_2_eq base { base := c, m_data := d } oi bs h
  · intro i b hb
    simp [List.getElem?_map, hb]

/-- Witness of C1: a curve with break points 0, 2, 5 and data 7 over the interval traits
is cut into the two intervals (0, 2) and (2, 5), each carrying the data list [7]. -/
theorem C1_Make_x_monotone_2_singleton_data_witness :
    (Example.interval_traits true).make_x_monotone_2 [0, 2, 5] = Except.ok [(0, 2), (2, 5)] ∧
    ∃ out : List (X_monotone_curve_2 (Nat × Nat) Nat),
      Make_x_monotone_2 (Example.interval_traits true) { base := [0, 2, 5], m_data := 7 } []
        = Except.ok ([] ++ out) ∧
      out.length = [((0 : Nat), (2 : Nat)), (2, 5)].length ∧
      ∀ (i : Nat) (b : Nat × Nat), [((0 : Nat), (2 : Nat)), (2, 5)][i]? = some b →
        out[i]? = some { base := b, m_data_list := [7] } :=
  ⟨rfl, C1_Make_x_monotone_2_singleton_data (Example.interval_traits true) [0, 2, 5] 7 []
    [(0, 2), (2, 5)] rfl⟩

/-- C2. Split (`Split_2`): if the base split of the base curve of `cv` at `p` yields
`(l, r)`, then the functor returns `c1` with base curve `l` and `c2` with base curve `r`,
and the data lists of both are exactly the data list `S` of `cv`: the data is copied to
both halves, not divided between them. -/
theorem C2_Split_2_copies_data (base : Base_traits C B P) (b : B) (S : List D) (p : P)
    (l r : B) (h : base.split_2 b p = Except.ok (l, r)) :
    Split_2 base { base := b, m_data_list := S } p
      = Except.ok ({ base := l, m_data_list := S }, { base := r, m_data_list := S }) := by
  unfold Split_2
  simp only [h]
  show Except.ok _ = Except.ok _
  simp [from_range_eq, X_monotone_curve_2.data_range]

/-- Witness of C2: the interval (0, 10) with data list [4, 9, 4] split at 3. -/
theorem C2_Split_2_copies_data_witness :
    (Example.interval_traits true).split_2 (0, 10) 3 = Except.ok ((0, 3), (3, 10)) ∧
    Split_2 (Example.interval_traits true) { base := (0, 10), m_data_list := [4, 9, 4] } 3
      = Except.ok ({ base := (0, 3), m_data_list := [4, 9, 4] },
                   { base := (3, 10), m_data_list := [4, 9, 4] }) :=
  ⟨rfl, C2_Split_2_copies_data (Example.interval_traits true) (0, 10) [4, 9, 4] 3
    (0, 3) (3, 10) rfl⟩

/-- C3. Intersect (`Intersect_2`), overlap case: if the base intersection of the two base
curves yields the objects `objs`, the functor appends one object per base object, and
every overlap curve `b` among them is written, at the same position, as the x-monotone
curve with base curve `b` and data list `S1 ++ S2` (the data of `cv1` followed by the
data of `cv2`, of length `|S1| + |S2|`). For `S1 = [a1]`, `S2 = [a2]` the data list is
`[a1, a2]`: it is not `[a2, a1]` unless `a1 = a2`, and it is never shortened to `[a1]`. -/
theorem C3_Intersect_2_overlap_concatenates (base : Base_traits C B P)
    (cv1 cv2 : X_monotone_curve_2 B D) (oi : List (Object P (X_monotone_curve_2 B D)))
    (objs : List (Object P B))
    (h : base.intersect_2 cv1.base cv2.base = Except.ok objs) :
    ∃ out : List (Object P (X_monotone_curve_2 B D)),
      Intersect_2 base cv1 cv2 oi = Except.ok (oi ++ out) ∧
      out.length = objs.length ∧
      (∀ (i : Nat) (b : B), objs[i]? = some (Object.curve b) →
        ∃ cv : X_monotone_curve_2 B D, out[i]? = some (Object.curve cv) ∧
          cv.base = b ∧ cv.m_data_list = cv1.m_data_list ++ cv2.m_data_list ∧
          cv.number_of_data_objects
            = cv1.number_of_data_objects + cv2.number_of_data_objects ∧
          ∀ a1 a2 : D, cv1.m_data_list = [a1] → cv2.m_data_list = [a2] →
            cv.m_data_list = [a1, a2] ∧ (a1 ≠ a2 → cv.m_data_list ≠ [a2, a1]) ∧
            cv.m_data_list ≠ [a1]) := by
  refine ⟨objs.map (Intersect_2_written cv1 cv2), Intersect_2_eq base cv1 cv2 oi objs h,
    by simp, ?_⟩
  intro i b hb
  refine ⟨{ base := b, m_data_list := cv1.m_data_list ++ cv2.m_data_list }, ?_, rfl, rfl,
    ?_, ?_⟩
  · simp [List.getElem?_map, hb, Intersect_2_written]
  · simp [X_monotone_curve_2.number_of_data_objects]
  · intro a1 a2 h1 h2
    simp only [h1, h2]
    refine ⟨rfl, ?_, by simp⟩
    intro hne heq
    simp at heq
    exact hne heq.1

/-- Witness of C3: over the interval traits, the intervals (0, 5) with data [7] and
(2, 9) with data [7] overlap in (2, 5). -/
theorem C3_Intersect_2_overlap_concatenates_witness :
    (Example.interval_traits true).intersect_2 (0, 5) (2, 9)
        = Except.ok [Object.curve (2, 5)] ∧
    ∃ out : List (Object Nat (X_monotone_curve_2 (Nat × Nat) Nat)),
      Intersect_2 (Example.interval_traits true) { base := (0, 5), m_data_list := [7] }
          { base := (2, 9), m_data_list := [7] } [] = Except.ok ([] ++ out) ∧
      out.length = [(Object.curve (2, 5) : Object Nat (Nat × Nat))].length ∧
      (∀ (i : Nat) (b : Nat × Nat),
        [(Object.curve (2, 5) : Object Nat (Nat × Nat))][i]? = some (Object.curve b) →
        ∃ cv : X_monotone_curve_2 (Nat × Nat) Nat, out[i]? = some (Object.curve cv) ∧
          cv.base = b ∧ cv.m_data_list = [7] ++ [7] ∧
          cv.number_of_data_objects
            = (X_monotone_curve_2.mk ((0 : Nat), (5 : Nat)) [7]).number_of_data_objects
              + (X_monotone_curve_2.mk ((2 : Nat), (9 : Nat)) [7]).number_of_data_objects ∧
          ∀ a1 a2 : Nat, [7] = [a1] → [7] = [a2] →
            cv.m_data_list = [a1, a2] ∧ (a1 ≠ a2 → cv.m_data_list ≠ [a2, a1]) ∧
            cv.m_data_list ≠ [a1]) :=
  ⟨rfl, C3_Intersect_2_overlap_concatenates (Example.interval_traits true)
    { base := (0, 5), m_data_list := [7] } { base := (2, 9), m_data_list := [7] } []
    [Object.curve (2, 5)] rfl⟩

/-- C4. AreMergeable (`Are_mergeable_2`) when the base traits supports merging: the
functor returns true if and only if the base predicate returns true on the two base
curves and the two data lists are equal, where equality of the lists is positional (same
length and the same element at every position). Whenever the base predicate returns a
value `r`, the functor returns `r` and-ed with the list equality, so it returns false on
lists that differ in order or content even if the base curves are mergeable. -/
theorem C4_Are_mergeable_2_iff_base_and_same_data [DecidableEq D] (base : Base_traits C B P)
    (cv1 cv2 : X_monotone_curve_2 B D) (htag : Base_has_merge_category base = true) :
    (Are_mergeable_2 base cv1 cv2 = Except.ok true ↔
      base.are_mergeable_2 cv1.base cv2.base = Except.ok true ∧
      (cv1.m_data_list.length = cv2.m_data_list.length ∧
        ∀ i : Nat, cv1.m_data_list[i]? = cv2.m_data_list[i]?)) ∧
    (∀ r : Bool, base.are_mergeable_2 cv1.base cv2.base = Except.ok r →
      Are_mergeable_2 base cv1 cv2
        = Except.ok (r && decide (cv1.m_data_list = cv2.m_data_list))) ∧
    (base.are_mergeable_2 cv1.base cv2.base = Except.ok true →
      cv1.m_data_list ≠ cv2.m_data_list →
      Are_mergeable_2 base cv1 cv2 = Except.ok false) := by
  have hpos : (cv1.m_data_list.length = cv2.m_data_list.length ∧
      ∀ i : Nat, cv1.m_data_list[i]? = cv2.m_data_list[i]?)
      ↔ cv1.m_data_list = cv2.m_data_list := by
    constructor
    · intro hp
      exact List.ext_getElem? hp.2
    · intro he
      rw [he]
      exact ⟨rfl, fun _ => rfl⟩
  refine ⟨?_, ?_, ?_⟩
  · rw [hpos]
    constructor
    · intro hm
      cases hb : base.are_mergeable_2 cv1.base cv2.base with
      | error e =>
        rw [Are_mergeable_2_tag_true_error base cv1 cv2 htag e hb] at hm
        cases hm
      | ok r =>
        rw [Are_mergeable_2_tag_true_ok base cv1 cv2 htag r hb] at hm
        injection hm with hm
        simp at hm
        exact ⟨by rw [hm.1], hm.2⟩
    · intro hm
      rw [Are_mergeable_2_tag_true_ok base cv1 cv2 htag true hm.1]
      simp [hm.2]
  · intro r hr
    exact Are_mergeable_2_tag_true_ok base cv1 cv2 htag r hr
  · intro hb hne
    rw [Are_mergeable_2_tag_true_ok base cv1 cv2 htag true hb]
    simp [hne]

/-- Witness of C4: the adjacent intervals (0, 1) and (1, 2) are mergeable in the interval
traits, but with data lists [1, 2] and [2, 1] the decorated curves are not. -/
theorem C4_Are_mergeable_2_iff_base_and_same_data_witness :
    Base_has_merge_category (Example.interval_traits true) = true ∧
    (Example.interval_traits true).are_mergeable_2 (0, 1) (1, 2) = Except.ok true ∧
    ([1, 2] : List Nat) ≠ [2, 1] ∧
    Are_mergeable_2 (Example.interval_traits true)
      { base := (0, 1), m_data_list := [1, 2] } { base := (1, 2), m_data_list := [2, 1] }
      = Except.ok false :=
  ⟨rfl, rfl, by decide,
    (C4_Are_mergeable_2_iff_base_and_same_data (Example.interval_traits true)
      { base := (0, 1), m_data_list := [1, 2] } { base := (1, 2), m_data_list := [2, 1] }
      rfl).2.2 rfl (by decide)⟩

/-- C5. Merge (`Merge_2`) when the base traits supports merging: for two curves with equal
data lists `S`, if the base merge of their base curves yields `m`, the functor returns the
curve with base curve `m` and data list exactly `S` (the list of `cv1`, which is also the
list of `cv2`); for non-empty `S` this is not `S ++ S`. -/
theorem C5_Merge_2_keeps_shared_data [DecidableEq D] (base : Base_traits C B P)
    (cv1 cv2 c : X_monotone_curve_2 B D) (m : B)
    (htag : Base_has_merge_category base = true)
    (hsame : cv1.m_data_list = cv2.m_data_list)
    (hm : base.merge_2 cv1.base cv2.base = Except.ok m) :
    Merge_2 base cv1 cv2 c = Except.ok { base := m, m_data_list := cv1.m_data_list } ∧
    Merge_2 base cv1 cv2 c = Except.ok { base := m, m_data_list := cv2.m_data_list } ∧
    (cv1.m_data_list ≠ [] →
      Merge_2 base cv1 cv2 c
        ≠ Except.ok { base := m, m_data_list := cv1.m_data_list ++ cv2.m_data_list }) := by
  have hres : Merge_2 base cv1 cv2 c
      = Except.ok { base := m, m_data_list := cv1.m_data_list } := by
    rw [Merge_2_tag_true_ok base cv1 cv2 c htag m hm, if_pos hsame]
  refine ⟨hres, ?_, ?_⟩
  · rw [hres, hsame]
  · intro hne heq
    rw [hres] at heq
    injection heq with heq
    injection heq with _ hl
    have hlen := congrArg List.length hl
    rw [List.length_append, ← hsame] at hlen
    have hpos : 0 < cv1.m_data_list.length := List.length_pos.mpr hne
    omega

/-- Witness of C5: merging the adjacent intervals (0, 1) and (1, 2), both with data list
[3, 4], gives the interval (0, 2) with data list [3, 4]. -/
theorem C5_Merge_2_keeps_shared_data_witness :
    Base_has_merge_category (Example.interval_traits true) = true ∧
    (Example.interval_traits true).merge_2 (0, 1) (1, 2) = Except.ok (0, 2) ∧
    Merge_2 (Example.interval_traits true)
      { base := (0, 1), m_data_list := [3, 4] } { base := (1, 2), m_data_list := [3, 4] }
      { base := (0, 0), m_data_list := [] }
      = Except.ok { base := (0, 2), m_data_list := [3, 4] } :=
  ⟨rfl, rfl,
    (C5_Merge_2_keeps_shared_data (Example.interval_traits true)
      { base := (0, 1), m_data_list := [3, 4] } { base := (1, 2), m_data_list := [3, 4] }
      { base := (0, 0), m_data_list := [] } (0, 2) rfl rfl rfl).1⟩

/-- C6. Capability gating: when the base traits reports no merge support, the functor
`Are_mergeable_2` returns false for every pair of curves, whatever their data lists and
base curves are, and it does so whatever the base predicate is: the result is the same
when the base predicate is replaced by any other one, including one that always fails. -/
theorem C6_Are_mergeable_2_false_without_merge_support [DecidableEq D]
    (base : Base_traits C B P) (cv1 cv2 : X_monotone_curve_2 B D)
    (htag : Base_has_merge_category base = false) :
    Are_mergeable_2 base cv1 cv2 = Except.ok false ∧
    ∀ f : B → B → Except Failure Bool,
      Are_mergeable_2 { base with are_mergeable_2 := f } cv1 cv2 = Except.ok false := by
  refine ⟨Are_mergeable_2_tag_false base cv1 cv2 htag, ?_⟩
  intro f
  exact Are_mergeable_2_tag_false { base with are_mergeable_2 := f } cv1 cv2 htag

/-- Witness of C6: over the stub traits without merge support, whose base predicate
fails on every call, a curve is reported not mergeable with itself. -/
theorem C6_Are_mergeable_2_false_without_merge_support_witness :
    Base_has_merge_category (Example.stub_traits false) = false ∧
    (Example.stub_traits false).are_mergeable_2 3 3 = Except.error (Failure.base_failure 1) ∧
    Are_mergeable_2 (Example.stub_traits false)
      { base := 3, m_data_list := [1] } { base := 3, m_data_list := [1] }
      = Except.ok false :=
  ⟨rfl, rfl,
    (C6_Are_mergeable_2_false_without_merge_support (Example.stub_traits false)
      { base := 3, m_data_list := [1] } { base := 3, m_data_list := [1] } rfl).1⟩

/-- C7. Merge (`Merge_2`) when the base traits does not support merging: for every pair of
curves the call ends in an assertion failure; it returns no result curve, and the outcome
is the same whatever the base merge functor is, so the base merge is not called. -/
theorem C7_Merge_2_assertion_without_merge_support [DecidableEq D]
    (base : Base_traits C B P) (cv1 cv2 c : X_monotone_curve_2 B D)
    (htag : Base_has_merge_category base = false) :
    Merge_2 base cv1 cv2 c = Except.error Failure.assertion_violation ∧
    (∀ r : X_monotone_curve_2 B D, Merge_2 base cv1 cv2 c ≠ Except.ok r) ∧
    ∀ f : B → B → Except Failure B,
      Merge_2 { base with merge_2 := f } cv1 cv2 c
        = Except.error Failure.assertion_violation := by
  have hres := Merge_2_tag_false base cv1 cv2 c htag
  refine ⟨hres, ?_, ?_⟩
  · intro r hr
    rw [hres] at hr
    cases hr
  · intro f
    exact Merge_2_tag_false { base with merge_2 := f } cv1 cv2 c htag

/-- Witness of C7: over the interval traits without merge support, merging the adjacent
intervals (0, 1) and (1, 2) with equal data lists is an assertion failure, although the
base merge functor would return (0, 2). -/
theorem C7_Merge_2_assertion_without_merge_support_witness :
    Base_has_merge_category (Example.interval_traits false) = false ∧
    (Example.interval_traits false).merge_2 (0, 1) (1, 2) = Except.ok (0, 2) ∧
    Merge_2 (Example.interval_traits false)
      { base := (0, 1), m_data_list := [3] } { base := (1, 2), m_data_list := [3] }
      { base := (0, 0), m_data_list := [] }
      = Except.error Failure.assertion_violation :=
  ⟨rfl, rfl,
    (C7_Merge_2_assertion_without_merge_support (Example.interval_traits false)
      { base := (0, 1), m_data_list := [3] } { base := (1, 2), m_data_list := [3] }
      { base := (0, 0), m_data_list := [] } rfl).1⟩

/-- C8, counterexample. Over the interval traits whose merge functor does not check its
precondition, the intervals (0, 1) and (2, 3) with the same data list [7] are reported
not mergeable (the base predicate is false), yet `Merge_2` returns a result curve. So it
is not true that `Merge_2` fails on every pair on which `Are_mergeable_2` is false. -/
theorem C8_Merge_2_not_fatal_when_only_base_predicate_false :
    Base_has_merge_category Example.unchecked_interval_traits = true ∧
    Example.unchecked_interval_traits.are_mergeable_2 (0, 1) (2, 3) = Except.ok false ∧
    Are_mergeable_2 Example.unchecked_interval_traits
      { base := (0, 1), m_data_list := [7] } { base := (2, 3), m_data_list := [7] }
      = Except.ok false ∧
    Merge_2 Example.unchecked_interval_traits
      { base := (0, 1), m_data_list := [7] } { base := (2, 3), m_data_list := [7] }
      { base := (0, 0), m_data_list := [] }
      = Except.ok { base := (0, 3), m_data_list := [7] } ∧
    ¬ (∀ (base : Base_traits (List Nat) (Nat × Nat) Nat)
        (cv1 cv2 c : X_monotone_curve_2 (Nat × Nat) Nat),
        Base_has_merge_category base = true →
        Are_mergeable_2 base cv1 cv2 = Except.ok false →
        ∃ e : Failure, Merge_2 base cv1 cv2 c = Except.error e) := by
  refine ⟨rfl, rfl, rfl, rfl, ?_⟩
  intro hall
  obtain ⟨e, he⟩ := hall Example.unchecked_interval_traits
    { base := (0, 1), m_data_list := [7] } { base := (2, 3), m_data_list := [7] }
    { base := (0, 0), m_data_list := [] } rfl rfl
  have hok : Merge_2 Example.unchecked_interval_traits
      { base := (0, 1), m_data_list := [7] } { base := (2, 3), m_data_list := [7] }
      { base := (0, 0), m_data_list := [] }
      = Except.ok { base := (0, 3), m_data_list := [7] } := rfl
  rw [hok] at he
  cases he

/-- C8, amended. With merging supported, `Merge_2` checks the data lists only, and only
after the base merge has returned. If the data lists differ the call never returns a
result curve: it ends in the failure of the base merge when that fails, and in a
precondition violation otherwise. If the data lists are equal the base are-mergeable
predicate is not consulted: the call fails exactly when the base merge fails, with that
failure, and otherwise returns the merged base curve with the shared data list. -/
theorem C8_Merge_2_fatal_on_different_data [DecidableEq D] (base : Base_traits C B P)
    (cv1 cv2 c : X_monotone_curve_2 B D) (htag : Base_has_merge_category base = true) :
    (cv1.m_data_list ≠ cv2.m_data_list →
      (∃ e : Failure, Merge_2 base cv1 cv2 c = Except.error e) ∧
      (∀ r : X_monotone_curve_2 B D, Merge_2 base cv1 cv2 c ≠ Except.ok r) ∧
      (∀ m : B, base.merge_2 cv1.base cv2.base = Except.ok m →
        Merge_2 base cv1 cv2 c = Except.error Failure.precondition_violation)) ∧
    (∀ e : Failure, base.merge_2 cv1.base cv2.base = Except.error e →
      Merge_2 base cv1 cv2 c = Except.error e) ∧
    (cv1.m_data_list = cv2.m_data_list →
      Merge_2 base cv1 cv2 c
        = Except.map (fun m => { base := m, m_data_list := cv1.m_data_list })
            (base.merge_2 cv1.base cv2.base)) := by
  refine ⟨?_, ?_, ?_⟩
  · intro hne
    have hfail : ∃ e : Failure, Merge_2 base cv1 cv2 c = Except.error e := by
      cases hb : base.merge_2 cv1.base cv2.base with
      | error e => exact ⟨e, Merge_2_tag_true_error base cv1 cv2 c htag e hb⟩
      | ok m =>
        refine ⟨Failure.precondition_violation, ?_⟩
        rw [Merge_2_tag_true_ok base cv1 cv2 c htag m hb, if_neg hne]
    refine ⟨hfail, ?_, ?_⟩
    · intro r hr
      obtain ⟨e, he⟩ := hfail
      rw [he] at hr
      cases hr
    · intro m hb
      rw [Merge_2_tag_true_ok base cv1 cv2 c htag m hb, if_neg hne]
  · intro e hb
    exact Merge_2_tag_true_error base cv1 cv2 c htag e hb
  · intro hsame
    cases hb : base.merge_2 cv1.base cv2.base with
    | error e =>
      rw [Merge_2_tag_true_error base cv1 cv2 c htag e hb]
      rfl
    | ok m =>
      rw [Merge_2_tag_true_ok base cv1 cv2 c htag m hb, if_pos hsame]
      rfl

/-- Witness of C8, amended: merging the adjacent intervals (0, 1) and (1, 2) with data
lists [1] and [2] is a precondition violation although the base merge returns (0, 2). -/
theorem C8_Merge_2_fatal_on_different_data_witness :
    Base_has_merge_category (Example.interval_traits true) = true ∧
    ([1] : List Nat) ≠ [2] ∧
    (Example.interval_traits true).merge_2 (0, 1) (1, 2) = Except.ok (0, 2) ∧
    Merge_2 (Example.interval_traits true)
      { base := (0, 1), m_data_list := [1] } { base := (1, 2), m_data_list := [2] }
      { base := (0, 0), m_data_list := [] }
      = Except.error Failure.precondition_violation :=
  ⟨rfl, by decide, rfl,
    ((C8_Merge_2_fatal_on_different_data (Example.interval_traits true)
      { base := (0, 1), m_data_list := [1] } { base := (1, 2), m_data_list := [2] }
      { base := (0, 0), m_data_list := [] } rfl).1 (by decide)).2.2 (0, 2) rfl⟩

/-- C9. Round-trip scenario: take two curves with data 1 and 2 over the same base segment
`s`, and a base traits that decomposes `s` into the single piece `s` and intersects `s`
with itself in the single overlap curve `s`. Then `Make_x_monotone_2` yields exactly one
x-monotone curve for each (with data lists [1] and [2]), and `Intersect_2` of the first
with the second yields exactly one object, the overlap curve `s` with data list [1, 2],
and no point. -/
theorem C9_round_trip_scenario {T : Type} (base : Base_traits T T P) (s : T)
    (hdec : base.make_x_monotone_2 s = Except.ok [s])
    (hint : base.intersect_2 s s = Except.ok [Object.curve s]) :
    ∃ (m1 m2 : X_monotone_curve_2 T Nat) (out : List (Object P (X_monotone_curve_2 T Nat))),
      Make_x_monotone_2 base { base := s, m_data := 1 } [] = Except.ok [m1] ∧
      Make_x_monotone_2 base { base := s, m_data := 2 } [] = Except.ok [m2] ∧
      m1.m_data_list = [1] ∧ m2.m_data_list = [2] ∧
      Intersect_2 base m1 m2 [] = Except.ok out ∧
      out = [Object.curve { base := s, m_data_list := [1, 2] }] ∧
      out.length = 1 ∧
      ∀ p : P, Object.point p ∉ out := by
  refine ⟨{ base := s, m_data_list := [1] }, { base := s, m_data_list := [2] },
    [Object.curve { base := s, m_data_list := [1, 2] }], ?_, ?_, rfl, rfl, ?_, rfl, rfl, ?_⟩
  · rw [Make_x_monotone_2_eq base { base := s, m_data := 1 } [] [s] hdec]
    rfl
  · rw [Make_x_monotone_2_eq base { base := s, m_data := 2 } [] [s] hdec]
    rfl
  · rw [Intersect_2_eq base { base := s, m_data_list := [1] }
      { base := s, m_data_list := [2] } [] [Object.curve s] hint]
    rfl
  · intro p hp
    simp at hp

/-- Witness of C9: the scenario over the segment traits with the segment (0, 4). -/
theorem C9_round_trip_scenario_witness :
    (Example.segment_traits true).make_x_monotone_2 (0, 4) = Except.ok [(0, 4)] ∧
    (Example.segment_traits true).intersect_2 (0, 4) (0, 4)
      = Except.ok [Object.curve (0, 4)] ∧
    ∃ (m1 m2 : X_monotone_curve_2 (Nat × Nat) Nat)
      (out : List (Object Nat (X_monotone_curve_2 (Nat × Nat) Nat))),
      Make_x_monotone_2 (Example.segment_traits true) { base := (0, 4), m_data := 1 } []
        = Except.ok [m1] ∧
      Make_x_monotone_2 (Example.segment_traits true) { base := (0, 4), m_data := 2 } []
        = Except.ok [m2] ∧
      m1.m_data_list = [1] ∧ m2.m_data_list = [2] ∧
      Intersect_2 (Example.segment_traits true) m1 m2 [] = Except.ok out ∧
      out = [Object.curve { base := (0, 4), m_data_list := [1, 2] }] ∧
      out.length = 1 ∧
      ∀ p : Nat, Object.point p ∉ out :=
  ⟨rfl, rfl, C9_round_trip_scenario (Example.segment_traits true) (0, 4) rfl rfl⟩

/-- C10. Intersect (`Intersect_2`), point case: take two calls whose first arguments have
the same base curve and whose second arguments have the same base curve, with arbitrary
data lists and arbitrary output iterators. If the base intersection yields `objs`, both
calls append `objs.length` objects, and a position holds the point `p` in the output of
either call exactly when it holds the point `p` in `objs`: every point is written as the
base intersection produced it, at the same position, in both calls. -/
theorem C10_Intersect_2_points_independent_of_data (base : Base_traits C B P)
    (cv1 cv1' cv2 cv2' : X_monotone_curve_2 B D)
    (oi oi' : List (Object P (X_monotone_curve_2 B D))) (objs : List (Object P B))
    (h1 : cv1.base = cv1'.base) (h2 : cv2.base = cv2'.base)
    (h : base.intersect_2 cv1.base cv2.base = Except.ok objs) :
    ∃ out out' : List (Object P (X_monotone_curve_2 B D)),
      Intersect_2 base cv1 cv2 oi = Except.ok (oi ++ out) ∧
      Intersect_2 base cv1' cv2' oi' = Except.ok (oi' ++ out') ∧
      out.length = objs.length ∧ out'.length = objs.length ∧
      ∀ (i : Nat) (p : P),
        (out[i]? = some (Object.point p) ↔ objs[i]? = some (Object.point p)) ∧
        (out'[i]? = some (Object.point p) ↔ objs[i]? = some (Object.point p)) ∧
        (out[i]? = some (Object.point p) ↔ out'[i]? = some (Object.point p)) := by
  have h' : base.intersect_2 cv1'.base cv2'.base = Except.ok objs := by
    rw [← h1, ← h2]
    exact h
  refine ⟨objs.map (Intersect_2_written cv1 cv2), objs.map (Intersect_2_written cv1' cv2'),
    Intersect_2_eq base cv1 cv2 oi objs h, Intersect_2_eq base cv1' cv2' oi' objs h',
    by simp, by simp, ?_⟩
  intro i p
  have ha := Intersect_2_written_point_iff cv1 cv2 objs i p
  have hb := Intersect_2_written_point_iff cv1' cv2' objs i p
  exact ⟨ha, hb, ha.trans hb.symm⟩

/-- Witness of C10: over the stub traits, whose intersection of the base curves 2 and 3 is
a point, a curve, a point and a curve, two calls with different data lists. -/
theorem C10_Intersect_2_points_independent_of_data_witness :
    (Example.stub_traits true).intersect_2 2 3
      = Except.ok [Object.point 2, Object.curve 5, Object.point 3, Object.curve 6] ∧
    ∃ out out' : List (Object Nat (X_monotone_curve_2 Nat Nat)),
      Intersect_2 (Example.stub_traits true) { base := 2, m_data_list := [1] }
        { base := 3, m_data_list := [] } [] = Except.ok ([] ++ out) ∧
      Intersect_2 (Example.stub_traits true) { base := 2, m_data_list := [5, 6] }
        { base := 3, m_data_list := [9] } [Object.point 0] = Except.ok ([Object.point 0] ++ out') ∧
      out.length
        = [(Object.point 2 : Object Nat Nat), Object.curve 5, Object.point 3,
            Object.curve 6].length ∧
      out'.length
        = [(Object.point 2 : Object Nat Nat), Object.curve 5, Object.point 3,
            Object.curve 6].length ∧
      ∀ (i : Nat) (p : Nat),
        (out[i]? = some (Object.point p) ↔
          [(Object.point 2 : Object Nat Nat), Object.curve 5, Object.point 3,
            Object.curve 6][i]? = some (Object.point p)) ∧
        (out'[i]? = some (Object.point p) ↔
          [(Object.point 2 : Object Nat Nat), Object.curve 5, Object.point 3,
            Object.curve 6][i]? = some (Object.point p)) ∧
        (out[i]? = some (Object.point p) ↔ out'[i]? = some (Object.point p)) :=
  ⟨rfl, C10_Intersect_2_points_independent_of_data (Example.stub_traits true)
    { base := 2, m_data_list := [1] } { base := 2, m_data_list := [5, 6] }
    { base := 3, m_data_list := [] } { base := 3, m_data_list := [9] } [] [Object.point 0]
    [Object.point 2, Object.curve 5, Object.point 3, Object.curve 6] rfl rfl rfl⟩

/-- C11. Intersect output shape: if the base intersection yields the objects `objs`, then
`Intersect_2` appends exactly `objs.length` objects to the output, in the same order; the
`i`-th written object is a point exactly when `objs[i]` is a point and a curve exactly
when `objs[i]` is an overlap curve. When `objs` is empty nothing is written and the
output iterator is returned as it was passed. -/
theorem C11_Intersect_2_output_shape (base : Base_traits C B P)
    (cv1 cv2 : X_monotone_curve_2 B D) (oi : List (Object P (X_monotone_curve_2 B D)))
    (objs : List (Object P B))
    (h : base.intersect_2 cv1.base cv2.base = Except.ok objs) :
    ∃ out : List (Object P (X_monotone_curve_2 B D)),
      Intersect_2 base cv1 cv2 oi = Except.ok (oi ++ out) ∧
      out.length = objs.length ∧
      (∀ i : Nat,
        ((∃ p : P, out[i]? = some (Object.point p))
          ↔ ∃ p : P, objs[i]? = some (Object.point p)) ∧
        ((∃ x : X_monotone_curve_2 B D, out[i]? = some (Object.curve x))
          ↔ ∃ b : B, objs[i]? = some (Object.curve b))) ∧
      (objs = [] → out = [] ∧ Intersect_2 base cv1 cv2 oi = Except.ok oi) := by
  refine ⟨objs.map (Intersect_2_written cv1 cv2), Intersect_2_eq base cv1 cv2 oi objs h,
    by simp, ?_, ?_⟩
  · intro i
    constructor
    · constructor
      · rintro ⟨p, hp⟩
        exact ⟨p, (Intersect_2_written_point_iff cv1 cv2 objs i p).mp hp⟩
      · rintro ⟨p, hp⟩
        exact ⟨p, (Intersect_2_written_point_iff cv1 cv2 objs i p).mpr hp⟩
    · constructor
      · rintro ⟨x, hx⟩
        obtain ⟨b, hb, _⟩ := (Intersect_2_written_curve_iff cv1 cv2 objs i x).mp hx
        exact ⟨b, hb⟩
      · rintro ⟨b, hb⟩
        exact ⟨{ base := b, m_data_list := cv1.m_data_list ++ cv2.m_data_list },
          (Intersect_2_written_curve_iff cv1 cv2 objs i _).mpr ⟨b, hb, rfl⟩⟩
  · intro hnil
    subst hnil
    refine ⟨rfl, ?_⟩
    rw [Intersect_2_eq base cv1 cv2 oi [] h]
    simp

/-- Witness of C11: over the stub traits the base intersection of the base curves 2 and 3
is a point, a curve, a point and a curve; the call appends four objects of those kinds. -/
theorem C11_Intersect_2_output_shape_witness :
    (Example.stub_traits true).intersect_2 2 3
      = Except.ok [Object.point 2, Object.curve 5, Object.point 3, Object.curve 6] ∧
    Intersect_2 (Example.stub_traits true) { base := 2, m_data_list := [1] }
        { base := 3, m_data_list := [8] } [Object.point 0]
      = Except.ok [Object.point 0, Object.point 2,
          Object.curve { base := 5, m_data_list := [1, 8] }, Object.point 3,
          Object.curve { base := 6, m_data_list := [1, 8] }] ∧
    ∃ out : List (Object Nat (X_monotone_curve_2 Nat Nat)),
      Intersect_2 (Example.stub_traits true) { base := 2, m_data_list := [1] }
        { base := 3, m_data_list := [8] } [Object.point 0]
        = Except.ok ([Object.point 0] ++ out) ∧
      out.length
        = [(Object.point 2 : Object Nat Nat), Object.curve 5, Object.point 3,
            Object.curve 6].length ∧
      (∀ i : Nat,
        ((∃ p : Nat, out[i]? = some (Object.point p))
          ↔ ∃ p : Nat, [(Object.point 2 : Object Nat Nat), Object.curve 5, Object.point 3,
              Object.curve 6][i]? = some (Object.point p)) ∧
        ((∃ x : X_monotone_curve_2 Nat Nat, out[i]? = some (Object.curve x))
          ↔ ∃ b : Nat, [(Object.point 2 : Object Nat Nat), Object.curve 5, Object.point 3,
              Object.curve 6][i]? = some (Object.curve b))) ∧
      ([(Object.point 2 : Object Nat Nat), Object.curve 5, Object.point 3, Object.curve 6] = [] →
        out = [] ∧
        Intersect_2 (Example.stub_traits true) { base := 2, m_data_list := [1] }
          { base := 3, m_data_list := [8] } [Object.point 0]
          = Except.ok [Object.point 0]) :=
  ⟨rfl, rfl, C11_Intersect_2_output_shape (Example.stub_traits true)
    { base := 2, m_data_list := [1] } { base := 3, m_data_list := [8] } [Object.point 0]
    [Object.point 2, Object.curve 5, Object.point 3, Object.curve 6] rfl⟩

/-- C12. The member `get_data` of an x-monotone curve: on a curve whose data list is not
empty it returns the first element of the list, which is the earliest inserted one
(adding data leaves it unchanged); it ends in a precondition violation if and only if the
list is empty, that is if and only if `number_of_data_objects` is 0, as on a
default-constructed curve and after `clear_data`. -/
theorem C12_get_data_front_or_precondition [Inhabited B] (cv : X_monotone_curve_2 B D) :
    (∀ (d : D) (rest : List D), cv.m_data_list = d :: rest → cv.get_data = Except.ok d) ∧
    (cv.m_data_list ≠ [] →
      ∃ d : D, cv.get_data = Except.ok d ∧ cv.m_data_list.head? = some d ∧
        ∀ d1 : D, (cv.add_data d1).get_data = Except.ok d) ∧
    (cv.get_data = Except.error Failure.precondition_violation ↔ cv.m_data_list = []) ∧
    ((∃ e : Failure, cv.get_data = Except.error e) ↔ cv.number_of_data_objects = 0) ∧
    (cv.get_data = Except.error Failure.precondition_violation
      ↔ cv.number_of_data_objects = 0) ∧
    (X_monotone_curve_2.default : X_monotone_curve_2 B D).get_data
      = Except.error Failure.precondition_violation ∧
    cv.clear_data.get_data = Except.error Failure.precondition_violation := by
  obtain ⟨b, S⟩ := cv
  cases S with
  | nil =>
    refine ⟨?_, ?_, ?_, ?_, ?_, get_data_nil _, get_data_nil b⟩
    · intro d rest hS
      cases hS
    · intro hne
      exact absurd rfl hne
    · simp [get_data_nil]
    · simp only [get_data_nil, X_monotone_curve_2.number_of_data_objects, List.length_nil,
        iff_true]
      exact ⟨Failure.precondition_violation, rfl⟩
    · simp [get_data_nil, X_monotone_curve_2.number_of_data_objects]
  | cons d rest =>
    refine ⟨?_, ?_, ?_, ?_, ?_, get_data_nil _, get_data_nil b⟩
    · intro d1 rest1 hS
      injection hS with hd _
      rw [← hd]
      exact get_data_cons b d rest
    · intro _
      refine ⟨d, get_data_cons b d rest, rfl, ?_⟩
      intro d1
      exact get_data_cons b d (rest ++ [d1])
    · simp [get_data_cons]
    · simp [get_data_cons, X_monotone_curve_2.number_of_data_objects]
    · simp [get_data_cons, X_monotone_curve_2.number_of_data_objects]

/-- Witness of C12: the curve over (0, 1) with data list [4, 9, 4] has data 4. -/
theorem C12_get_data_front_or_precondition_witness :
    ([4, 9, 4] : List Nat) ≠ [] ∧
    X_monotone_curve_2.get_data
      ({ base := (0, 1), m_data_list := [4, 9, 4] } : X_monotone_curve_2 (Nat × Nat) Nat)
      = Except.ok 4 ∧
    X_monotone_curve_2.get_data
      (X_monotone_curve_2.clear_data
        ({ base := (0, 1), m_data_list := [4, 9, 4] } : X_monotone_curve_2 (Nat × Nat) Nat))
      = Except.error Failure.precondition_violation :=
  ⟨by decide,
    (C12_get_data_front_or_precondition
      ({ base := (0, 1), m_data_list := [4, 9, 4] } : X_monotone_curve_2 (Nat × Nat) Nat)).1
      4 [9, 4] rfl,
    (C12_get_data_front_or_precondition
      ({ base := (0, 1), m_data_list := [4, 9, 4] }
        : X_monotone_curve_2 (Nat × Nat) Nat)).2.2.2.2.2.2⟩

/-- C13. The mutators of an x-monotone curve with base curve `b` and data list `S`:
`add_data (d)` leaves `S ++ [d]`; `add_data (begin, end)` over a range `R` leaves
`S ++ R`, in the order of `R`; `set_data (d)` leaves exactly `[d]` whatever `S` was, so
that it is idempotent and `number_of_data_objects` is 1 afterwards; `clear_data` leaves
the empty list; and each of them leaves the base curve `b` unchanged. -/
theorem C13_mutators (b : B) (S R : List D) (d : D) :
    X_monotone_curve_2.add_data { base := b, m_data_list := S } d
      = { base := b, m_data_list := S ++ [d] } ∧
    X_monotone_curve_2.add_data_range { base := b, m_data_list := S } R
      = { base := b, m_data_list := S ++ R } ∧
    X_monotone_curve_2.set_data { base := b, m_data_list := S } d
      = { base := b, m_data_list := [d] } ∧
    X_monotone_curve_2.set_data
        (X_monotone_curve_2.set_data { base := b, m_data_list := S } d) d
      = X_monotone_curve_2.set_data { base := b, m_data_list := S } d ∧
    (X_monotone_curve_2.set_data { base := b, m_data_list := S } d).number_of_data_objects
      = 1 ∧
    X_monotone_curve_2.clear_data { base := b, m_data_list := S }
      = ({ base := b, m_data_list := [] } : X_monotone_curve_2 B D) ∧
    (X_monotone_curve_2.add_data { base := b, m_data_list := S } d).base = b ∧
    (X_monotone_curve_2.add_data_range { base := b, m_data_list := S } R).base = b ∧
    (X_monotone_curve_2.set_data { base := b, m_data_list := S } d).base = b ∧
    (X_monotone_curve_2.clear_data
      ({ base := b, m_data_list := S } : X_monotone_curve_2 B D)).base = b := by
  refine ⟨rfl, ?_, rfl, rfl, rfl, rfl, rfl, rfl, rfl, rfl⟩
  simp [X_monotone_curve_2.add_data_range, push_back_range_eq]

/-- C14. Non-empty data invariant: every x-monotone curve written by `Make_x_monotone_2`
has a non-empty data list; the curves returned by `Split_2`, the overlap curves written by
`Intersect_2`, and the curve returned by a successful `Merge_2` have non-empty data lists
whenever the input curves have; hence every curve produced from the outputs of
`Make_x_monotone_2` by any finite number of such steps has a non-empty data list, and
`get_data` returns on it. -/
theorem C14_nonempty_data_invariant [DecidableEq D] (base : Base_traits C B P) :
    (∀ (cv : Curve_2 C D) (oi out : List (X_monotone_curve_2 B D))
        (x : X_monotone_curve_2 B D),
      Make_x_monotone_2 base cv oi = Except.ok (oi ++ out) → x ∈ out →
      x.m_data_list ≠ []) ∧
    (∀ (cv : X_monotone_curve_2 B D) (p : P) (c1 c2 : X_monotone_curve_2 B D),
      cv.m_data_list ≠ [] → Split_2 base cv p = Except.ok (c1, c2) →
      c1.m_data_list ≠ [] ∧ c2.m_data_list ≠ []) ∧
    (∀ (cv1 cv2 : X_monotone_curve_2 B D)
        (oi out : List (Object P (X_monotone_curve_2 B D))) (x : X_monotone_curve_2 B D),
      cv1.m_data_list ≠ [] → cv2.m_data_list ≠ [] →
      Intersect_2 base cv1 cv2 oi = Except.ok (oi ++ out) → Object.curve x ∈ out →
      x.m_data_list ≠ []) ∧
    (∀ cv1 cv2 c x : X_monotone_curve_2 B D,
      cv1.m_data_list ≠ [] → cv2.m_data_list ≠ [] →
      Merge_2 base cv1 cv2 c = Except.ok x → x.m_data_list ≠ []) ∧
    (∀ x : X_monotone_curve_2 B D, Produced base x →
      x.m_data_list ≠ [] ∧ ∃ d : D, x.get_data = Except.ok d) := by
  refine ⟨?_, ?_, ?_, ?_, ?_⟩
  · intro cv oi out x hm hx
    rw [Make_x_monotone_2_nonempty base cv oi out x hm hx]
    simp
  · intro cv p c1 c2 hne hs
    obtain ⟨h1, h2, _⟩ := Split_2_ok_inv base cv p c1 c2 hs
    rw [h1, h2]
    exact ⟨hne, hne⟩
  · intro cv1 cv2 oi out x hne1 _ hi hx
    rw [Intersect_2_overlap_data base cv1 cv2 oi out x hi hx]
    intro happ
    exact hne1 (List.append_eq_nil.mp happ).1
  · intro cv1 cv2 c x hne1 _ hm
    rw [(Merge_2_ok_inv base cv1 cv2 c x hm).2.2.1]
    exact hne1
  · intro x hx
    have hne := Produced_nonempty base x hx
    exact ⟨hne, get_data_of_nonempty x hne⟩

/-- Witness of C14: over the interval traits, the curve with break points 0, 2, 5 and
data 7 is decomposed, its first piece (0, 2) is split at 1, and the left half (0, 1) is
intersected with the piece (0, 2): the overlap curve (0, 1) with data list [7, 7] is
produced, and `get_data` returns on it. -/
theorem C14_nonempty_data_invariant_witness :
    Produced (Example.interval_traits true)
      ({ base := (0, 1), m_data_list := [7, 7] } : X_monotone_curve_2 (Nat × Nat) Nat) ∧
    (({ base := (0, 1), m_data_list := [7, 7] }
        : X_monotone_curve_2 (Nat × Nat) Nat).m_data_list ≠ [] ∧
      ∃ d : Nat, X_monotone_curve_2.get_data
        ({ base := (0, 1), m_data_list := [7, 7] } : X_monotone_curve_2 (Nat × Nat) Nat)
        = Except.ok d) :=
  have hpiece : Produced (Example.interval_traits true)
      ({ base := (0, 2), m_data_list := [7] } : X_monotone_curve_2 (Nat × Nat) Nat) :=
    Produced.make_x_monotone { base := [0, 2, 5], m_data := 7 } []
      [{ base := (0, 2), m_data_list := [7] }, { base := (2, 5), m_data_list := [7] }]
      _ rfl (List.Mem.head _)
  have hleft : Produced (Example.interval_traits true)
      ({ base := (0, 1), m_data_list := [7] } : X_monotone_curve_2 (Nat × Nat) Nat) :=
    Produced.split_left { base := (0, 2), m_data_list := [7] } 1 _
      { base := (1, 2), m_data_list := [7] } hpiece rfl
  have hover : Produced (Example.interval_traits true)
      ({ base := (0, 1), m_data_list := [7, 7] } : X_monotone_curve_2 (Nat × Nat) Nat) :=
    Produced.intersect { base := (0, 1), m_data_list := [7] }
      { base := (0, 2), m_data_list := [7] } []
      [Object.curve { base := (0, 1), m_data_list := [7, 7] }] _ hleft hpiece rfl
      (List.Mem.head _)
  ⟨hover, (C14_nonempty_data_invariant (Example.interval_traits true)).2.2.2.2 _ hover⟩

/-- C15. Positional, not set-wise, merge equality: with merging supported, for every pair
of base curves that the base predicate reports mergeable and all data `a1 ≠ a2`, there
are curves over them whose data lists are permutations of each other (`[a1, a2]` and
`[a2, a1]`), and curves whose data lists hold the same data with different multiplicities
(`[a1]` and `[a1, a1]`), on which `Are_mergeable_2` returns false. -/
theorem C15_Are_mergeable_2_positional [DecidableEq D] (base : Base_traits C B P)
    (b1 b2 : B) (a1 a2 : D) (htag : Base_has_merge_category base = true)
    (hb : base.are_mergeable_2 b1 b2 = Except.ok true) (hne : a1 ≠ a2) :
    (∃ cv1 cv2 : X_monotone_curve_2 B D, cv1.base = b1 ∧ cv2.base = b2 ∧
      cv1.m_data_list = [a1, a2] ∧ cv2.m_data_list = [a2, a1] ∧
      List.Perm cv1.m_data_list cv2.m_data_list ∧
      base.are_mergeable_2 cv1.base cv2.base = Except.ok true ∧
      Are_mergeable_2 base cv1 cv2 = Except.ok false) ∧
    (∃ cv1 cv2 : X_monotone_curve_2 B D, cv1.base = b1 ∧ cv2.base = b2 ∧
      cv1.m_data_list = [a1] ∧ cv2.m_data_list = [a1, a1] ∧
      (∀ d : D, d ∈ cv1.m_data_list ↔ d ∈ cv2.m_data_list) ∧
      base.are_mergeable_2 cv1.base cv2.base = Except.ok true ∧
      Are_mergeable_2 base cv1 cv2 = Except.ok false) := by
  constructor
  · refine ⟨{ base := b1, m_data_list := [a1, a2] }, { base := b2, m_data_list := [a2, a1] },
      rfl, rfl, rfl, rfl, List.Perm.swap a2 a1 [], hb, ?_⟩
    rw [Are_mergeable_2_tag_true_ok base _ _ htag true hb]
    simp [hne]
  · refine ⟨{ base := b1, m_data_list := [a1] }, { base := b2, m_data_list := [a1, a1] },
      rfl, rfl, rfl, rfl, ?_, hb, ?_⟩
    · intro d
      simp
    · rw [Are_mergeable_2_tag_true_ok base _ _ htag true hb]
      simp

/-- Witness of C15: the adjacent intervals (0, 1) and (1, 2) of the interval traits, with
the data 1 and 2. -/
theorem C15_Are_mergeable_2_positional_witness :
    Base_has_merge_category (Example.interval_traits true) = true ∧
    (Example.interval_traits true).are_mergeable_2 (0, 1) (1, 2) = Except.ok true ∧
    Are_mergeable_2 (Example.interval_traits true)
      { base := (0, 1), m_data_list := [1, 2] } { base := (1, 2), m_data_list := [2, 1] }
      = Except.ok false ∧
    Are_mergeable_2 (Example.interval_traits true)
      { base := (0, 1), m_data_list := [1] } { base := (1, 2), m_data_list := [1, 1] }
      = Except.ok false ∧
    ((∃ cv1 cv2 : X_monotone_curve_2 (Nat × Nat) Nat, cv1.base = (0, 1) ∧ cv2.base = (1, 2) ∧
      cv1.m_data_list = [1, 2] ∧ cv2.m_data_list = [2, 1] ∧
      List.Perm cv1.m_data_list cv2.m_data_list ∧
      (Example.interval_traits true).are_mergeable_2 cv1.base cv2.base = Except.ok true ∧
      Are_mergeable_2 (Example.interval_traits true) cv1 cv2 = Except.ok false) ∧
    (∃ cv1 cv2 : X_monotone_curve_2 (Nat × Nat) Nat, cv1.base = (0, 1) ∧ cv2.base = (1, 2) ∧
      cv1.m_data_list = [1] ∧ cv2.m_data_list = [1, 1] ∧
      (∀ d : Nat, d ∈ cv1.m_data_list ↔ d ∈ cv2.m_data_list) ∧
      (Example.interval_traits true).are_mergeable_2 cv1.base cv2.base = Except.ok true ∧
      Are_mergeable_2 (Example.interval_traits true) cv1 cv2 = Except.ok false)) :=
  ⟨rfl, rfl, rfl, rfl,
    C15_Are_mergeable_2_positional (Example.interval_traits true) (0, 1) (1, 2) 1 2
      rfl rfl (by decide)⟩

/-- C16. Capability-flag independence: two base traits that agree on decomposition, split
and intersection give identical results of `Make_x_monotone_2`, `Split_2` and
`Intersect_2` on every input, whatever their merge tags and merge functors are. The tag
is read by `Are_mergeable_2` and `Merge_2` only: when the first traits has the tag true
and the second has it false, on curves with equal data lists that the first base
predicate reports mergeable the first returns true and the second false, and where the
first base merge returns, `Merge_2` returns over the first and fails over the second. -/
theorem C16_flag_independence [DecidableEq D] (base1 base2 : Base_traits C B P)
    (hdec : base1.make_x_monotone_2 = base2.make_x_monotone_2)
    (hsplit : base1.split_2 = base2.split_2)
    (hint : base1.intersect_2 = base2.intersect_2) :
    (∀ (cv : Curve_2 C D) (oi : List (X_monotone_curve_2 B D)),
      Make_x_monotone_2 base1 cv oi = Make_x_monotone_2 base2 cv oi) ∧
    (∀ (cv : X_monotone_curve_2 B D) (p : P), Split_2 base1 cv p = Split_2 base2 cv p) ∧
    (∀ (cv1 cv2 : X_monotone_curve_2 B D) (oi : List (Object P (X_monotone_curve_2 B D))),
      Intersect_2 base1 cv1 cv2 oi = Intersect_2 base2 cv1 cv2 oi) ∧
    (Base_has_merge_category base1 = true → Base_has_merge_category base2 = false →
      ∀ cv1 cv2 c : X_monotone_curve_2 B D, cv1.m_data_list = cv2.m_data_list →
        (base1.are_mergeable_2 cv1.base cv2.base = Except.ok true →
          Are_mergeable_2 base1 cv1 cv2 = Except.ok true ∧
          Are_mergeable_2 base2 cv1 cv2 = Except.ok false) ∧
        (∀ m : B, base1.merge_2 cv1.base cv2.base = Except.ok m →
          Merge_2 base1 cv1 cv2 c = Except.ok { base := m, m_data_list := cv1.m_data_list } ∧
          Merge_2 base2 cv1 cv2 c = Except.error Failure.assertion_violation)) := by
  refine ⟨?_, ?_, ?_, ?_⟩
  · intro cv oi
    unfold Make_x_monotone_2
    rw [hdec]
  · intro cv p
    unfold Split_2
    rw [hsplit]
  · intro cv1 cv2 oi
    unfold Intersect_2
    rw [hint]
  · intro h1 h2 cv1 cv2 c hsame
    constructor
    · intro hb
      constructor
      · rw [Are_mergeable_2_tag_true_ok base1 cv1 cv2 h1 true hb]
        simp [hsame]
      · exact Are_mergeable_2_tag_false base2 cv1 cv2 h2
    · intro m hm
      constructor
      · rw [Merge_2_tag_true_ok base1 cv1 cv2 c h1 m hm, if_pos hsame]
      · exact Merge_2_tag_false base2 cv1 cv2 c h2

/-- Witness of C16: the interval traits with and without merge support. -/
theorem C16_flag_independence_witness :
    (Example.interval_traits true).make_x_monotone_2
      = (Example.interval_traits false).make_x_monotone_2 ∧
    (Example.interval_traits true).split_2 = (Example.interval_traits false).split_2 ∧
    (Example.interval_traits true).intersect_2
      = (Example.interval_traits false).intersect_2 ∧
    Base_has_merge_category (Example.interval_traits true) = true ∧
    Base_has_merge_category (Example.interval_traits false) = false ∧
    Intersect_2 (Example.interval_traits true) { base := (0, 5), m_data_list := [1] }
        { base := (2, 9), m_data_list := [2] } []
      = Intersect_2 (Example.interval_traits false) { base := (0, 5), m_data_list := [1] }
        { base := (2, 9), m_data_list := [2] } [] ∧
    (Are_mergeable_2 (Example.interval_traits true) { base := (0, 1), m_data_list := [3] }
        { base := (1, 2), m_data_list := [3] } = Except.ok true ∧
      Are_mergeable_2 (Example.interval_traits false) { base := (0, 1), m_data_list := [3] }
        { base := (1, 2), m_data_list := [3] } = Except.ok false) :=
  ⟨rfl, rfl, rfl, rfl, rfl,
    (C16_flag_independence (Example.interval_traits true) (Example.interval_traits false)
      rfl rfl rfl).2.2.1 { base := (0, 5), m_data_list := [1] }
      { base := (2, 9), m_data_list := [2] } [],
    ((C16_flag_independence (Example.interval_traits true) (Example.interval_traits false)
      rfl rfl rfl).2.2.2 rfl rfl { base := (0, 1), m_data_list := [3] }
      { base := (1, 2), m_data_list := [3] } { base := (0, 0), m_data_list := [] } rfl).1 rfl⟩

/-- C17. Split-then-merge round trip on the data: with merging supported, if the base
split of the base curve of `cv` at `p` yields `(l, r)`, then `Split_2` returns two curves
`c1`, `c2` over `l` and `r` that have the same data; `Are_mergeable_2` on them gives what
the base predicate gives on `l` and `r`; and whenever the base merge of `l` and `r`
yields `m`, `Merge_2` on them returns the curve over `m` with the data list of `cv`. -/
theorem C17_Split_2_then_Merge_2 [DecidableEq D] (base : Base_traits C B P)
    (cv c : X_monotone_curve_2 B D) (p : P) (l r : B)
    (htag : Base_has_merge_category base = true)
    (hsplit : base.split_2 cv.base p = Except.ok (l, r)) :
    ∃ c1 c2 : X_monotone_curve_2 B D,
      Split_2 base cv p = Except.ok (c1, c2) ∧
      c1.base = l ∧ c2.base = r ∧
      c1.has_same_data c2 = true ∧
      Are_mergeable_2 base c1 c2 = base.are_mergeable_2 l r ∧
      ∀ m : B, base.merge_2 l r = Except.ok m →
        Merge_2 base c1 c2 c = Except.ok { base := m, m_data_list := cv.m_data_list } := by
  refine ⟨{ base := l, m_data_list := cv.m_data_list },
    { base := r, m_data_list := cv.m_data_list }, Split_2_eq base cv p l r hsplit, rfl, rfl,
    ?_, ?_, ?_⟩
  · simp [has_same_data_eq]
  · cases hb : base.are_mergeable_2 l r with
    | error e =>
      exact Are_mergeable_2_tag_true_error base { base := l, m_data_list := cv.m_data_list }
        { base := r, m_data_list := cv.m_data_list } htag e hb
    | ok v =>
      rw [Are_mergeable_2_tag_true_ok base { base := l, m_data_list := cv.m_data_list }
        { base := r, m_data_list := cv.m_data_list } htag v hb]
      simp
  · intro m hm
    rw [Merge_2_tag_true_ok base { base := l, m_data_list := cv.m_data_list }
      { base := r, m_data_list := cv.m_data_list } c htag m hm]
    simp

/-- Witness of C17: the interval (0, 10) with data list [4, 9] is split at 3 and the two
halves are merged again into (0, 10) with data list [4, 9]. -/
theorem C17_Split_2_then_Merge_2_witness :
    Base_has_merge_category (Example.interval_traits true) = true ∧
    (Example.interval_traits true).split_2 (0, 10) 3 = Except.ok ((0, 3), (3, 10)) ∧
    (Example.interval_traits true).merge_2 (0, 3) (3, 10) = Except.ok (0, 10) ∧
    ∃ c1 c2 : X_monotone_curve_2 (Nat × Nat) Nat,
      Split_2 (Example.interval_traits true) { base := (0, 10), m_data_list := [4, 9] } 3
        = Except.ok (c1, c2) ∧
      c1.base = (0, 3) ∧ c2.base = (3, 10) ∧
      c1.has_same_data c2 = true ∧
      Are_mergeable_2 (Example.interval_traits true) c1 c2
        = (Example.interval_traits true).are_mergeable_2 (0, 3) (3, 10) ∧
      ∀ m : Nat × Nat, (Example.interval_traits true).merge_2 (0, 3) (3, 10) = Except.ok m →
        Merge_2 (Example.interval_traits true) c1 c2 { base := (0, 0), m_data_list := [] }
          = Except.ok { base := m, m_data_list := [4, 9] } :=
  ⟨rfl, rfl, rfl,
    C17_Split_2_then_Merge_2 (Example.interval_traits true)
      { base := (0, 10), m_data_list := [4, 9] } { base := (0, 0), m_data_list := [] } 3
      (0, 3) (3, 10) rfl rfl⟩

/-- C18. Intersect is order-sensitive on the data: if the base intersection reports the
same overlap curve `b` for `(cv1, cv2)` (at position `i`) and for `(cv2, cv1)` (at
position `j`), then `Intersect_2 (cv1, cv2)` writes `b` with data `S1 ++ S2` and
`Intersect_2 (cv2, cv1)` writes `b` with data `S2 ++ S1`. The two written curves have the
same data if and only if `S1 ++ S2 = S2 ++ S1`; for `S1 = [a1]`, `S2 = [a2]`, `a1 ≠ a2`
they do not, `Are_mergeable_2` on them never returns true, and it returns false whenever
the base predicate returns at all or merging is unsupported. Intersecting a curve with
itself writes each overlap curve with data `S ++ S`, in which every datum occurs twice
as often as in `S`. -/
theorem C18_Intersect_2_order_sensitive [DecidableEq D] (base : Base_traits C B P)
    (cv1 cv2 : X_monotone_curve_2 B D) (oi : List (Object P (X_monotone_curve_2 B D)))
    (objs12 objs21 : List (Object P B)) (i j : Nat) (b : B)
    (h12 : base.intersect_2 cv1.base cv2.base = Except.ok objs12)
    (h21 : base.intersect_2 cv2.base cv1.base = Except.ok objs21)
    (hi : objs12[i]? = some (Object.curve b)) (hj : objs21[j]? = some (Object.curve b)) :
    (∃ (out12 out21 : List (Object P (X_monotone_curve_2 B D)))
        (x y : X_monotone_curve_2 B D),
      Intersect_2 base cv1 cv2 oi = Except.ok (oi ++ out12) ∧
      Intersect_2 base cv2 cv1 oi = Except.ok (oi ++ out21) ∧
      out12[i]? = some (Object.curve x) ∧ out21[j]? = some (Object.curve y) ∧
      x.base = b ∧ y.base = b ∧
      x.m_data_list = cv1.m_data_list ++ cv2.m_data_list ∧
      y.m_data_list = cv2.m_data_list ++ cv1.m_data_list ∧
      (x.has_same_data y = true
        ↔ cv1.m_data_list ++ cv2.m_data_list = cv2.m_data_list ++ cv1.m_data_list) ∧
      (∀ a1 a2 : D, cv1.m_data_list = [a1] → cv2.m_data_list = [a2] → a1 ≠ a2 →
        x.has_same_data y = false ∧
        Are_mergeable_2 base x y ≠ Except.ok true ∧
        ((Base_has_merge_category base = false ∨
            ∃ v : Bool, base.are_mergeable_2 b b = Except.ok v) →
          Are_mergeable_2 base x y = Except.ok false))) ∧
    (∀ (objs : List (Object P B)) (k : Nat) (b0 : B),
      base.intersect_2 cv1.base cv1.base = Except.ok objs →
      objs[k]? = some (Object.curve b0) →
      ∃ out : List (Object P (X_monotone_curve_2 B D)),
        Intersect_2 base cv1 cv1 oi = Except.ok (oi ++ out) ∧
        out[k]? = some (Object.curve
          { base := b0, m_data_list := cv1.m_data_list ++ cv1.m_data_list }) ∧
        (cv1.m_data_list ++ cv1.m_data_list).length = 2 * cv1.m_data_list.length ∧
        ∀ a : D, List.count a (cv1.m_data_list ++ cv1.m_data_list)
          = 2 * List.count a cv1.m_data_list) := by
  constructor
  · refine ⟨objs12.map (Intersect_2_written cv1 cv2), objs21.map (Intersect_2_written cv2 cv1),
      { base := b, m_data_list := cv1.m_data_list ++ cv2.m_data_list },
      { base := b, m_data_list := cv2.m_data_list ++ cv1.m_data_list },
      Intersect_2_eq base cv1 cv2 oi objs12 h12, Intersect_2_eq base cv2 cv1 oi objs21 h21,
      (Intersect_2_written_curve_iff cv1 cv2 objs12 i _).mpr ⟨b, hi, rfl⟩,
      (Intersect_2_written_curve_iff cv2 cv1 objs21 j _).mpr ⟨b, hj, rfl⟩,
      rfl, rfl, rfl, rfl, ?_, ?_⟩
    · simp [has_same_data_eq]
    · intro a1 a2 hS1 hS2 hne
      have hdiff : cv1.m_data_list ++ cv2.m_data_list
          ≠ cv2.m_data_list ++ cv1.m_data_list := by
        rw [hS1, hS2]
        intro heq
        simp at heq
        exact hne heq.1
      refine ⟨?_, ?_, ?_⟩
      · simp [has_same_data_eq, hdiff]
      · intro htrue
        exact hdiff (Are_mergeable_2_ok_true_inv base _ _ htrue).2.2
      · intro hret
        cases htag : base.Has_merge_category with
        | false => exact Are_mergeable_2_tag_false base _ _ htag
        | true =>
          rcases hret with hfalse | ⟨v, hv⟩
          · unfold Base_has_merge_category at hfalse
            rw [htag] at hfalse
            cases hfalse
          · rw [Are_mergeable_2_tag_true_ok base _ _ htag v hv]
            simp [hdiff]
  · intro objs k b0 hobjs hk
    refine ⟨objs.map (Intersect_2_written cv1 cv1), Intersect_2_eq base cv1 cv1 oi objs hobjs,
      (Intersect_2_written_curve_iff cv1 cv1 objs k _).mpr ⟨b0, hk, rfl⟩, ?_, ?_⟩
    · rw [List.length_append]
      omega
    · intro a
      rw [List.count_append]
      omega

/-- Witness of C18: over the interval traits, the intervals (0, 5) with data [1] and
(2, 9) with data [2] overlap in (2, 5) in either order. -/
theorem C18_Intersect_2_order_sensitive_witness :
    (Example.interval_traits true).intersect_2 (0, 5) (2, 9)
      = Except.ok [Object.curve (2, 5)] ∧
    (Example.interval_traits true).intersect_2 (2, 9) (0, 5)
      = Except.ok [Object.curve (2, 5)] ∧
    Intersect_2 (Example.interval_traits true) { base := (0, 5), m_data_list := [1] }
        { base := (2, 9), m_data_list := [2] } []
      = Except.ok [Object.curve { base := (2, 5), m_data_list := [1, 2] }] ∧
    Intersect_2 (Example.interval_traits true) { base := (2, 9), m_data_list := [2] }
        { base := (0, 5), m_data_list := [1] } []
      = Except.ok [Object.curve { base := (2, 5), m_data_list := [2, 1] }] ∧
    Are_mergeable_2 (Example.interval_traits true)
        { base := (2, 5), m_data_list := [1, 2] } { base := (2, 5), m_data_list := [2, 1] }
      = Except.ok false ∧
    ∃ (out12 out21 : List (Object Nat (X_monotone_curve_2 (Nat × Nat) Nat)))
        (x y : X_monotone_curve_2 (Nat × Nat) Nat),
      Intersect_2 (Example.interval_traits true) { base := (0, 5), m_data_list := [1] }
        { base := (2, 9), m_data_list := [2] } [] = Except.ok ([] ++ out12) ∧
      Intersect_2 (Example.interval_traits true) { base := (2, 9), m_data_list := [2] }
        { base := (0, 5), m_data_list := [1] } [] = Except.ok ([] ++ out21) ∧
      out12[0]? = some (Object.curve x) ∧ out21[0]? = some (Object.curve y) ∧
      x.base = (2, 5) ∧ y.base = (2, 5) ∧
      x.m_data_list = [1] ++ [2] ∧ y.m_data_list = [2] ++ [1] ∧
      (x.has_same_data y = true ↔ ([1] : List Nat) ++ [2] = [2] ++ [1]) ∧
      (∀ a1 a2 : Nat, ([1] : List Nat) = [a1] → ([2] : List Nat) = [a2] → a1 ≠ a2 →
        x.has_same_data y = false ∧
        Are_mergeable_2 (Example.interval_traits true) x y ≠ Except.ok true ∧
        ((Base_has_merge_category (Example.interval_traits true) = false ∨
            ∃ v : Bool, (Example.interval_traits true).are_mergeable_2 (2, 5) (2, 5)
              = Except.ok v) →
          Are_mergeable_2 (Example.interval_traits true) x y = Except.ok false)) :=
  ⟨rfl, rfl, rfl, rfl, rfl,
    (C18_Intersect_2_order_sensitive (Example.interval_traits true)
      { base := (0, 5), m_data_list := [1] } { base := (2, 9), m_data_list := [2] } []
      [Object.curve (2, 5)] [Object.curve (2, 5)] 0 0 (2, 5) rfl rfl rfl rfl).1⟩

/-- C19. Advertised capability versus behaviour: the tag `Has_merge_category` of the
decorated traits is true whatever the tag of the base traits is; when the base tag is
false, the decorated traits thus advertises merge support while `Are_mergeable_2` returns
false for every pair of curves and `Merge_2` fails, with an assertion failure, for every
pair of curves. -/
theorem C19_Has_merge_category_always_true [DecidableEq D] (base : Base_traits C B P) :
    Has_merge_category base = true ∧
    (∀ tag : Bool, Has_merge_category { base with Has_merge_category := tag } = true) ∧
    (Base_has_merge_category base = false →
      Has_merge_category base = true ∧
      ∀ cv1 cv2 c : X_monotone_curve_2 B D,
        Are_mergeable_2 base cv1 cv2 = Except.ok false ∧
        Merge_2 base cv1 cv2 c = Except.error Failure.assertion_violation ∧
        ∀ x : X_monotone_curve_2 B D, Merge_2 base cv1 cv2 c ≠ Except.ok x) := by
  refine ⟨rfl, fun _ => rfl, ?_⟩
  intro htag
  refine ⟨rfl, ?_⟩
  intro cv1 cv2 c
  have hm := Merge_2_tag_false base cv1 cv2 c htag
  refine ⟨Are_mergeable_2_tag_false base cv1 cv2 htag, hm, ?_⟩
  intro x hx
  rw [hm] at hx
  cases hx

/-- Witness of C19: the interval traits without merge support. -/
theorem C19_Has_merge_category_always_true_witness :
    Base_has_merge_category (Example.interval_traits false) = false ∧
    Has_merge_category (Example.interval_traits false) = true ∧
    Are_mergeable_2 (Example.interval_traits false)
        { base := (0, 1), m_data_list := [3] } { base := (1, 2), m_data_list := [3] }
      = Except.ok false ∧
    Merge_2 (Example.interval_traits false)
        { base := (0, 1), m_data_list := [3] } { base := (1, 2), m_data_list := [3] }
        { base := (0, 0), m_data_list := [] }
      = Except.error Failure.assertion_violation :=
  have h := (C19_Has_merge_category_always_true (D := Nat)
    (Example.interval_traits false)).2.2 rfl
  ⟨rfl, h.1,
    (h.2 { base := (0, 1), m_data_list := [3] } { base := (1, 2), m_data_list := [3] }
      { base := (0, 0), m_data_list := [] }).1,
    (h.2 { base := (0, 1), m_data_list := [3] } { base := (1, 2), m_data_list := [3] }
      { base := (0, 0), m_data_list := [] }).2.1⟩

end Claims

end CGAL
